import Mathlib

/-!
# Sponsoration e-mail service

A shallow embedding of `internal/service/email_service.go`,
`internal/service/email_templates.go` and `cmd/test-email/main.go`.

* Go strings are byte sequences; a source literal is embedded through `utf8`.
* `fmt.Sprintf` / `fmt.Errorf` / `log.Printf` are embedded through `doPrintf`, a
  model of the verbs the repository uses (`%%`, `%s`, `%d`, `%v`, `%w`).
* `os.Getenv`, `time.Now().Year()` and the SendGrid client are inputs of the model:
  an environment, a year and a provider function.
-/

namespace Sponsoration

/-! ## Strings and formatting -/

/-- A Go `string`: an immutable sequence of bytes. -/
abbrev GoString := List UInt8

/-- The bytes (UTF-8) of a string literal of the source. -/
def utf8 (s : String) : GoString := s.data.flatMap String.utf8EncodeChar

/-- An operand of a formatting call: a `string`, an `int` or an `error` (by its message). -/
inductive Arg where
  | str (s : GoString)
  | int (i : Int)
  | err (msg : GoString)

/-- Decimal rendering of an `int` (what `%d` prints). -/
def formatInt (i : Int) : GoString := utf8 (toString i)

/-- The byte `%`. -/
def percent : UInt8 := 37

/-- Output of one verb applied to one operand (`printArg`); `none` where Go would print a
bad-verb marker or where the verb is outside the modelled fragment. `%w` is accepted only
under `wrapErrs` (that is, inside `fmt.Errorf`) and only for an error operand. -/
def printArg (wrapErrs : Bool) (verb : UInt8) (arg : Arg) : Option GoString :=
  if verb = 115 then          -- 's'
    match arg with
    | .str s => some s
    | .err m => some m
    | .int _ => none
  else if verb = 100 then     -- 'd'
    match arg with
    | .int i => some (formatInt i)
    | _ => none
  else if verb = 118 then     -- 'v'
    match arg with
    | .str s => some s
    | .err m => some m
    | .int i => some (formatInt i)
  else if verb = 119 then     -- 'w'
    match arg with
    | .err m => if wrapErrs then some m else none
    | _ => none
  else none

/-- The formatting loop of package `fmt`: bytes are copied up to a `%`; `%%` prints `%`;
any other verb consumes the next operand. The result is `none` when the call is not
well-formed (a missing or extra operand, a `%` that ends the format, an operand of the
wrong type) or uses a verb or flag that is not modelled. -/
def doPrintf (wrapErrs : Bool) : GoString → List Arg → Option GoString
  | [], [] => some []
  | [], _ :: _ => none
  | c :: rest, args =>
    if c ≠ percent then (doPrintf wrapErrs rest args).map (c :: ·)
    else
      match rest with
      | [] => none
      | verb :: rest' =>
        if verb = percent then (doPrintf wrapErrs rest' args).map (percent :: ·)
        else
          match args with
          | [] => none
          | a :: args' =>
            match printArg wrapErrs verb a, doPrintf wrapErrs rest' args' with
            | some x, some r => some (x ++ r)
            | _, _ => none

/-- Function `fmt.Sprintf`. A call outside the modelled fragment yields the empty string
here; the calls of the repository are inside it (`verification_render`,
`passwordReset_render`, `welcome_render`, `sprintf_hi` and the lemmas next to them). -/
def Sprintf (format : String) (args : List Arg) : GoString :=
  (doPrintf false (utf8 format) args).getD []

/-- Function `fmt.Errorf`, by the message of the error it builds. -/
def Errorf (format : String) (args : List Arg) : GoString :=
  (doPrintf true (utf8 format) args).getD []

/-! ## Format strings of the templates (`email_templates.go`) -/

/-- Format string of getVerificationEmailTemplate (the Go raw string literal, verbatim). -/
def verificationFormat : String := r#"
<!DOCTYPE html>
<html>
<head>
  <meta charset="utf-8">
  <meta name="viewport" content="width=device-width, initial-scale=1.0">
  <title>Verify Your Email</title>
</head>
<body style="margin: 0; padding: 0; font-family: Arial, sans-serif; background-color: #f4f4f4;">
  <table width="100%%" cellpadding="0" cellspacing="0" style="background-color: #f4f4f4; padding: 20px;">
    <tr>
      <td align="center">
        <table width="600" cellpadding="0" cellspacing="0" style="background-color: #ffffff; border-radius: 8px; overflow: hidden;">
          <!-- Header -->
          <tr>
            <td style="background-color: #4F46E5; padding: 30px 40px; text-align: center;">
              <h1 style="margin: 0; color: #ffffff; font-size: 28px;">Sponsoration</h1>
            </td>
          </tr>

          <!-- Content -->
          <tr>
            <td style="padding: 40px;">
              <h2 style="margin: 0 0 20px 0; color: #1F2937; font-size: 24px;">Verify Your Email Address</h2>
              <p style="margin: 0 0 20px 0; color: #4B5563; font-size: 16px; line-height: 1.5;">
                Thank you for registering! Please use the following code to verify your email address:
              </p>

              <!-- Code Box -->
              <div style="background-color: #F3F4F6; border-radius: 8px; padding: 30px; text-align: center; margin: 30px 0;">
                <div style="font-size: 32px; font-weight: bold; letter-spacing: 8px; color: #4F46E5; font-family: 'Courier New', monospace;">
                  %s
                </div>
              </div>

              <p style="margin: 20px 0 0 0; color: #6B7280; font-size: 14px; line-height: 1.5;">
                This code will expire in <strong>24 hours</strong>.
              </p>
              <p style="margin: 10px 0 0 0; color: #6B7280; font-size: 14px; line-height: 1.5;">
                If you didn't request this verification, please ignore this email.
              </p>
            </td>
          </tr>

          <!-- Footer -->
          <tr>
            <td style="background-color: #F9FAFB; padding: 30px 40px; text-align: center; border-top: 1px solid #E5E7EB;">
              <p style="margin: 0; color: #9CA3AF; font-size: 12px;">
                © %d Sponsoration. All rights reserved.
              </p>
            </td>
          </tr>
        </table>
      </td>
    </tr>
  </table>
</body>
</html>
    "#

/-- Format string of getPasswordResetEmailTemplate (the Go raw string literal, verbatim). -/
def passwordResetFormat : String := r#"
<!DOCTYPE html>
<html>
<head>
  <meta charset="utf-8">
  <meta name="viewport" content="width=device-width, initial-scale=1.0">
  <title>Reset Your Password</title>
</head>
<body style="margin: 0; padding: 0; font-family: Arial, sans-serif; background-color: #f4f4f4;">
  <table width="100%%" cellpadding="0" cellspacing="0" style="background-color: #f4f4f4; padding: 20px;">
    <tr>
      <td align="center">
        <table width="600" cellpadding="0" cellspacing="0" style="background-color: #ffffff; border-radius: 8px; overflow: hidden;">
          <!-- Header -->
          <tr>
            <td style="background-color: #DC2626; padding: 30px 40px; text-align: center;">
              <h1 style="margin: 0; color: #ffffff; font-size: 28px;">🔒 Password Reset</h1>
            </td>
          </tr>

          <!-- Content -->
          <tr>
            <td style="padding: 40px;">
              <h2 style="margin: 0 0 20px 0; color: #1F2937; font-size: 24px;">Reset Your Password</h2>
              <p style="margin: 0 0 20px 0; color: #4B5563; font-size: 16px; line-height: 1.5;">
                %s
              </p>
              <p style="margin: 0 0 20px 0; color: #4B5563; font-size: 16px; line-height: 1.5;">
                You requested to reset your password. Please use the following code:
              </p>

              <!-- Code Box -->
              <div style="background-color: #FEF2F2; border: 2px solid #FCA5A5; border-radius: 8px; padding: 30px; text-align: center; margin: 30px 0;">
                <div style="font-size: 32px; font-weight: bold; letter-spacing: 8px; color: #DC2626; font-family: 'Courier New', monospace;">
                  %s
                </div>
              </div>

              <p style="margin: 20px 0 0 0; color: #6B7280; font-size: 14px; line-height: 1.5;">
                This code will expire in <strong>24 hours</strong>.
              </p>
              <p style="margin: 10px 0 0 0; color: #6B7280; font-size: 14px; line-height: 1.5;">
                If you didn't request a password reset, please ignore this email and your password will remain unchanged.
              </p>

              <!-- Security Notice -->
              <div style="background-color: #FFFBEB; border-left: 4px solid #F59E0B; padding: 15px; margin-top: 30px;">
                <p style="margin: 0; color: #92400E; font-size: 13px; line-height: 1.5;">
                  <strong>Security Tip:</strong> Never share your password reset code with anyone. Sponsoration staff will never ask for this code.
                </p>
              </div>
            </td>
          </tr>

          <!-- Footer -->
          <tr>
            <td style="background-color: #F9FAFB; padding: 30px 40px; text-align: center; border-top: 1px solid #E5E7EB;">
              <p style="margin: 0; color: #9CA3AF; font-size: 12px;">
                © %d Sponsoration. All rights reserved.
              </p>
            </td>
          </tr>
        </table>
      </td>
    </tr>
  </table>
</body>
</html>
    "#

/-- Format string of getWelcomeEmailTemplate (the Go raw string literal, verbatim). -/
def welcomeFormat : String := r#"
<!DOCTYPE html>
<html>
<head>
  <meta charset="utf-8">
  <meta name="viewport" content="width=device-width, initial-scale=1.0">
  <title>Welcome to Sponsoration</title>
</head>
<body style="margin: 0; padding: 0; font-family: Arial, sans-serif; background-color: #f4f4f4;">
  <table width="100%%" cellpadding="0" cellspacing="0" style="background-color: #f4f4f4; padding: 20px;">
    <tr>
      <td align="center">
        <table width="600" cellpadding="0" cellspacing="0" style="background-color: #ffffff; border-radius: 8px; overflow: hidden;">
          <!-- Header -->
          <tr>
            <td style="background-color: #10B981; padding: 30px 40px; text-align: center;">
              <h1 style="margin: 0; color: #ffffff; font-size: 28px;">🎉 Welcome to Sponsoration!</h1>
            </td>
          </tr>

          <!-- Content -->
          <tr>
            <td style="padding: 40px;">
              <h2 style="margin: 0 0 20px 0; color: #1F2937; font-size: 24px;">Hi %s,</h2>
              <p style="margin: 0 0 20px 0; color: #4B5563; font-size: 16px; line-height: 1.5;">
                Thank you for joining our community! We're excited to have you on board.
              </p>
              <p style="margin: 0 0 30px 0; color: #4B5563; font-size: 16px; line-height: 1.5;">
                Get started by completing your profile and exploring the platform.
              </p>

              <!-- CTA Button -->
              <div style="text-align: center; margin: 30px 0;">
                <a href="%s"
                   style="display: inline-block; background-color: #10B981; color: #ffffff; text-decoration: none; padding: 15px 30px; border-radius: 6px; font-weight: bold; font-size: 16px;">
                  Go to Dashboard
                </a>
              </div>

              <p style="margin: 30px 0 0 0; color: #6B7280; font-size: 14px; line-height: 1.5;">
                Best regards,<br>
                <strong>The Sponsoration Team</strong>
              </p>
            </td>
          </tr>

          <!-- Footer -->
          <tr>
            <td style="background-color: #F9FAFB; padding: 30px 40px; text-align: center; border-top: 1px solid #E5E7EB;">
              <p style="margin: 0 0 10px 0; color: #9CA3AF; font-size: 12px;">
                © %d Sponsoration. All rights reserved.
              </p>
              <p style="margin: 0; color: #9CA3AF; font-size: 12px;">
                <a href="%s/privacy/policy" style="color: #6B7280; text-decoration: none;">Privacy Policy</a> •
                <a href="%s/privacy/terms" style="color: #6B7280; text-decoration: none;">Terms of Service</a>
              </p>
            </td>
          </tr>
        </table>
      </td>
    </tr>
  </table>
</body>
</html>
    "#

/-! ## Template renderers (`email_templates.go`)

Each renderer reads the calendar year from the clock; the year is an input here. -/

/-- Function `getVerificationEmailTemplate`. -/
def getVerificationEmailTemplate (year : Int) (code : GoString) : GoString :=
  Sprintf verificationFormat [.str code, .int year]

/-- Function `getPasswordResetEmailTemplate`. -/
def getPasswordResetEmailTemplate (year : Int) (code greeting : GoString) : GoString :=
  Sprintf passwordResetFormat [.str greeting, .str code, .int year]

/-- Function `getWelcomeEmailTemplate`. -/
def getWelcomeEmailTemplate (year : Int) (name appURL : GoString) : GoString :=
  Sprintf welcomeFormat [.str name, .str appURL, .int year, .str appURL, .str appURL]

/-! ## The e-mail service (`email_service.go`) -/

/-- The process environment: a variable is unset (`none`) or set to a value. -/
abbrev Env := GoString → Option GoString

/-- Function `os.Getenv`: the value of the variable, empty when it is not present. -/
def Getenv (env : Env) (key : String) : GoString := (env (utf8 key)).getD []

/-- Type `EmailService`. -/
structure EmailService where
  apiKey : GoString
  fromEmail : GoString
  fromName : GoString
  isDev : Bool
  deriving DecidableEq

/-- Type `EmailOptions`. -/
structure EmailOptions where
  To : GoString
  Subject : GoString
  Text : GoString
  HTML : GoString
  deriving DecidableEq

/-- Function `NewEmailService`: the service and the lines it logs. Log lines are recorded
by their message; the logger's timestamp and line terminator are left out. -/
def NewEmailService (env : Env) : EmailService × List GoString :=
  let apiKey := Getenv env "SENDGRID_API_KEY"
  let fromEmail := Getenv env "SENDGRID_FROM_EMAIL"
  let fromName := Getenv env "SENDGRID_FROM_NAME"
  let envName := Getenv env "ENV"
  let fromEmail := if fromEmail = [] then utf8 "noreply@yourdomain.com" else fromEmail
  let fromName := if fromName = [] then utf8 "Sponsoration" else fromName
  let isDev := decide (envName = utf8 "development") || decide (envName = [])
  let log := if apiKey = [] ∧ isDev = false then
      [utf8 "⚠️  SENDGRID_API_KEY not set in production!"] else []
  ({ apiKey := apiKey, fromEmail := fromEmail, fromName := fromName, isDev := isDev }, log)

/-- An address with a display name (`mail.Email` of the SendGrid helper library). -/
structure Email where
  Name : GoString
  Address : GoString
  deriving DecidableEq

/-- Function `mail.NewEmail`. -/
def NewEmail (name address : GoString) : Email := { Name := name, Address := address }

/-- The single-recipient message handed to the provider (`mail.SGMailV3` as built by
`mail.NewSingleEmail`), by the five values it is built from. -/
structure SGMailV3 where
  From : Email
  Subject : GoString
  To : Email
  PlainTextContent : GoString
  HTMLContent : GoString
  deriving DecidableEq

/-- Function `mail.NewSingleEmail`. -/
def NewSingleEmail (sender : Email) (subject : GoString) (recipient : Email)
    (plainTextContent htmlContent : GoString) : SGMailV3 :=
  { From := sender, Subject := subject, To := recipient,
    PlainTextContent := plainTextContent, HTMLContent := htmlContent }

/-- The provider's answer (`rest.Response`): status code and body. -/
structure Response where
  StatusCode : Int
  Body : GoString
  deriving DecidableEq

/-- One call `sendgrid.NewSendClient(apiKey).Send(message)`. -/
structure SendCall where
  apiKey : GoString
  message : SGMailV3
  deriving DecidableEq

/-- The provider: each call ends in a transport error (by its message) or a response. -/
abbrev Provider := SendCall → Except GoString Response

/-- What a send operation does: the error it returns (`none` for `nil`, else the
message), the lines it logs, and the provider calls it makes, in order. -/
structure Outcome where
  err : Option GoString
  log : List GoString
  calls : List SendCall

/-- Method `EmailService.SendEmail`. -/
def SendEmail (provider : Provider) (s : EmailService) (opts : EmailOptions) : Outcome :=
  if s.isDev then
    -- Development mode: log instead of sending
    { err := none
      log := [
        utf8 "📧 Email (DEV MODE - Not actually sent):",
        Sprintf "From: %s <%s>" [.str s.fromName, .str s.fromEmail],
        Sprintf "To: %s" [.str opts.To],
        Sprintf "Subject: %s" [.str opts.Subject],
        if opts.HTML.length > 200 then Sprintf "Content: %s..." [.str (opts.HTML.take 200)]
        else Sprintf "Content: %s" [.str opts.Text]]
      calls := [] }
  else
    -- Production mode: send via SendGrid
    let sender := NewEmail s.fromName s.fromEmail
    let recipient := NewEmail [] opts.To
    let message := NewSingleEmail sender opts.Subject recipient opts.Text opts.HTML
    let call : SendCall := { apiKey := s.apiKey, message := message }
    match provider call with
    | .error e =>
      { err := some (Errorf "failed to send email: %w" [.err e])
        log := [Sprintf "❌ Failed to send email: %v" [.err e]]
        calls := [call] }
    | .ok response =>
      if response.StatusCode ≥ 400 then
        { err := some (Errorf "sendgrid error: %d - %s"
            [.int response.StatusCode, .str response.Body])
          log := [Sprintf "❌ SendGrid error: %d - %s"
            [.int response.StatusCode, .str response.Body]]
          calls := [call] }
      else
        { err := none
          log := [Sprintf "✅ Email sent successfully to %s" [.str opts.To]]
          calls := [call] }

/-- Method `EmailService.SendVerificationEmail`. -/
def SendVerificationEmail (year : Int) (provider : Provider) (s : EmailService)
    (email code : GoString) : Outcome :=
  SendEmail provider s
    { To := email
      Subject := utf8 "Verify Your Email Address"
      Text := Sprintf "Your verification code is: %s" [.str code]
      HTML := getVerificationEmailTemplate year code }

/-- Method `EmailService.SendPasswordResetEmail`; `userName` is the variadic parameter. -/
def SendPasswordResetEmail (year : Int) (provider : Provider) (s : EmailService)
    (email code : GoString) (userName : List GoString) : Outcome :=
  let greeting :=
    match userName with
    | first :: _ => if first ≠ [] then Sprintf "Hi %s," [.str first] else utf8 "Hello,"
    | [] => utf8 "Hello,"
  SendEmail provider s
    { To := email
      Subject := utf8 "Reset Your Password"
      Text := Sprintf "Your password reset code is: %s" [.str code]
      HTML := getPasswordResetEmailTemplate year code greeting }

/-- Method `EmailService.SendWelcomeEmail`; `APP_URL` is read when the method runs. -/
def SendWelcomeEmail (env : Env) (year : Int) (provider : Provider) (s : EmailService)
    (email name : GoString) : Outcome :=
  let appURL := Getenv env "APP_URL"
  let appURL := if appURL = [] then utf8 "http://localhost:8082" else appURL
  SendEmail provider s
    { To := email
      Subject := utf8 "Welcome to Sponsoration!"
      Text := Sprintf "Welcome %s! Thank you for joining Sponsoration." [.str name]
      HTML := getWelcomeEmailTemplate year name appURL }

/-! ## The test utility (`cmd/test-email/main.go`)

The pauses between the sends (`time.Sleep`) are not modelled; the clock is read once by
each send, so `main` takes the year of each of the three readings. -/

/-- Function `fmt.Println` of one string: the text a call writes. -/
def Sprintln (s : String) : GoString := utf8 s ++ utf8 "\n"

/-- Function `getEnv`. -/
def getEnv (env : Env) : GoString :=
  let e := Getenv env "ENV"
  if e = [] then utf8 "development" else e

/-- What a step of the utility writes: to standard output, and through the logger. -/
structure Printed where
  stdout : List GoString
  log : List GoString

/-- Function `printResult`. -/
def printResult (err : Option GoString) : Printed :=
  match err with
  | some e => { stdout := [], log := [Sprintf "   ❌ Failed: %v\n" [.err e]] }
  | none => { stdout := [Sprintln "   ✅ Success\n"], log := [] }

/-- The loop of function `repeat`: `n` more rounds of `result += s`. -/
def repeatLoop (s : GoString) : Nat → GoString → GoString
  | 0, result => result
  | n + 1, result => repeatLoop s n (result ++ s)

/-- Function `repeat` (a reserved word here, hence the longer name). -/
def repeatString (s : String) (count : Int) : GoString :=
  repeatLoop (utf8 s) count.toNat []

/-- A run of the utility: what it writes, the outcomes of the sends it invokes, in the
order of invocation, and its exit status. -/
structure MainRun where
  stdout : List GoString
  log : List GoString
  sends : List Outcome
  exitCode : Int

/-- Function `main`; `args` is `os.Args` (the program name first). -/
def main (args : List GoString) (env : Env) (year1 year2 year3 : Int)
    (provider : Provider) : MainRun :=
  -- Get email from command line
  let (testEmail, usage) : GoString × List GoString :=
    match args with
    | _ :: first :: _ => (first, [])
    | _ =>
      (utf8 "test@example.com",
        [Sprintln "⚠️  Warning: No email address provided!",
         Sprintln "Usage: ENV=production go run cmd/test-email/main.go your-email@example.com",
         Sprintln "\nProceeding with default test@example.com...\n"])
  let banner : List GoString :=
    [Sprintln "🧪 Testing Email Service...\n",
     Sprintf "📧 Test email will be sent to: %s\n" [.str testEmail],
     Sprintf "🌍 Environment: %s\n" [.str (getEnv env)],
     Sprintf "📨 From: %s <%s>\n"
       [.str (Getenv env "SENDGRID_FROM_NAME"), .str (Getenv env "SENDGRID_FROM_EMAIL")],
     utf8 "\n" ++ repeatString "=" 60 ++ utf8 "\n" ++ utf8 "\n"]
  -- Create email service
  let created := NewEmailService env
  let emailService := created.1
  -- Test 1: Verification email
  let send1 := SendVerificationEmail year1 provider emailService testEmail (utf8 "TEST123")
  let print1 := printResult send1.err
  -- Test 2: Password reset email
  let send2 := SendPasswordResetEmail year2 provider emailService testEmail
    (utf8 "RESET456") [utf8 "Test User"]
  let print2 := printResult send2.err
  -- Test 3: Welcome email
  let send3 := SendWelcomeEmail env year3 provider emailService testEmail (utf8 "Test User")
  let print3 := printResult send3.err
  -- Summary
  let allPassed : Bool := send1.err.isNone && send2.err.isNone && send3.err.isNone
  let summary : List GoString :=
    if allPassed then
      [Sprintln "\n🎉 All email tests passed!",
       Sprintf "\n📬 Check your inbox at: %s\n" [.str testEmail],
       Sprintln "   (Don't forget to check spam folder)"]
    else
      [Sprintln "\n⚠️  Some email tests failed!",
       Sprintln "   Check the error messages above for details."]
  { stdout := usage ++ banner
      ++ [Sprintln "1️⃣  Testing Verification Email..."] ++ print1.stdout
      ++ [Sprintln "2️⃣  Testing Password Reset Email..."] ++ print2.stdout
      ++ [Sprintln "3️⃣  Testing Welcome Email..."] ++ print3.stdout
      ++ [repeatString "=" 60 ++ utf8 "\n"] ++ summary
    log := created.2 ++ send1.log ++ print1.log ++ send2.log ++ print2.log
      ++ send3.log ++ print3.log
    sends := [send1, send2, send3]
    exitCode := if allPassed then 0 else 1 }

/-! ## Reading a format string

A format is read as literal segments separated by operand verbs; these definitions are
used to reason about `doPrintf`, they are not part of the embedded program. -/

/-- The text a format prints before its first operand verb (`%%` prints `%`). -/
def litBefore : GoString → GoString
  | [] => []
  | c :: rest =>
    if c ≠ percent then c :: litBefore rest
    else
      match rest with
      | [] => []
      | verb :: rest' => if verb = percent then percent :: litBefore rest' else []

/-- The first operand verb of a format, if it has one. -/
def verbOf : GoString → Option UInt8
  | [] => none
  | c :: rest =>
    if c ≠ percent then verbOf rest
    else
      match rest with
      | [] => none
      | verb :: rest' => if verb = percent then verbOf rest' else some verb

/-- The format that remains after the first operand verb. -/
def afterVerb : GoString → GoString
  | [] => []
  | c :: rest =>
    if c ≠ percent then afterVerb rest
    else
      match rest with
      | [] => []
      | verb :: rest' => if verb = percent then afterVerb rest' else rest'

/-- A format without operand verbs and without a `%` at its end. -/
def plain : GoString → Bool
  | [] => true
  | c :: rest =>
    if c ≠ percent then plain rest
    else
      match rest with
      | [] => false
      | verb :: rest' => if verb = percent then plain rest' else false

/-- The format left after `n` operand verbs. -/
def formatTail : Nat → GoString → GoString
  | 0, f => f
  | n + 1, f => formatTail n (afterVerb f)

/-- The output of a format whose operand verbs print `xs`, in order: the literal text of
the format with the printed operands in the places of the verbs. -/
def interleave : GoString → List GoString → GoString
  | f, [] => litBefore f
  | f, x :: xs => litBefore f ++ (x ++ interleave (afterVerb f) xs)

/-! ## Occurrences of a pattern -/

/-- Number of positions of `s` at which `pat` occurs (for a non-empty pattern). -/
def occurrences (pat : GoString) : GoString → Nat
  | [] => 0
  | c :: s => (if pat.isPrefixOf (c :: s) then 1 else 0) + occurrences pat s

/-- No non-empty proper prefix of `pat` ends `a`: an occurrence cannot start in `a` and
run past its end. -/
def leftSafe (pat a : GoString) : Bool :=
  (List.range pat.length).all fun k => k == 0 || !(pat.take k).isSuffixOf a

/-- No non-empty proper suffix of `pat` starts `b` or is started by `b`: an occurrence
cannot begin before `b` and end inside it or beyond it. -/
def rightSafe (pat b : GoString) : Bool :=
  (List.range pat.length).all fun k =>
    k == 0 || (!(pat.drop k).isPrefixOf b && !b.isPrefixOf (pat.drop k))

/-- Every literal segment up to the `n`-th lets no occurrence of `pat` cross into or out
of an adjacent operand. -/
def safeFor (pat : GoString) : Nat → GoString → Bool
  | 0, _ => true
  | n + 1, f =>
    leftSafe pat (litBefore f) && rightSafe pat (litBefore (afterVerb f)) &&
      safeFor pat n (afterVerb f)

/-- Occurrences of `pat` inside the literal segments of a format with `n` operand verbs. -/
def litOccurrences (pat : GoString) : Nat → GoString → Nat
  | 0, f => occurrences pat (litBefore f)
  | n + 1, f => occurrences pat (litBefore f) + litOccurrences pat n (afterVerb f)

/-- The bytes a decimal rendering is made of: the minus sign and the ten digits. -/
def isDecimalByte (b : UInt8) : Bool := b == 45 || (decide (48 ≤ b) && decide (b ≤ 57))

/-! ## Vocabulary of the claims -/

/-- A send that returned no error and made no provider call. -/
def Outcome.silent (o : Outcome) : Prop := o.err = none ∧ o.calls = []

/-- The provider call a production-mode `SendEmail` makes for an envelope. -/
def productionCall (s : EmailService) (opts : EmailOptions) : SendCall :=
  { apiKey := s.apiKey
    message := NewSingleEmail (NewEmail s.fromName s.fromEmail) opts.Subject
      (NewEmail [] opts.To) opts.Text opts.HTML }

/-- The provider's answer is a failure: a transport error or a status code of 400 or more. -/
def isFailure : Except GoString Response → Prop
  | .error _ => True
  | .ok response => 400 ≤ response.StatusCode

/-- The greeting of the password-reset e-mail as the specification words it: "Hi n," for
a first name `n` that is supplied and non-empty, "Hello," otherwise. -/
def greetingFor (userName : List GoString) : GoString :=
  match userName.head? with
  | some n => if n = [] then utf8 "Hello," else utf8 "Hi " ++ n ++ utf8 ","
  | none => utf8 "Hello,"

/-- The application URL of the welcome e-mail as the specification words it: `APP_URL`
when it is non-empty, "http://localhost:8082" otherwise. -/
def resolvedAppURL (env : Env) : GoString :=
  if Getenv env "APP_URL" ≠ [] then Getenv env "APP_URL" else utf8 "http://localhost:8082"

/-- Opening of an anchor up to its `href` value. -/
def anchorOpen : String := "<a href=\""

/-- What follows the `href` value in the call-to-action anchor of the welcome e-mail. -/
def dashboardAnchorRest : String := r#""
                   style="display: inline-block; background-color: #10B981; color: #ffffff; text-decoration: none; padding: 15px 30px; border-radius: 6px; font-weight: bold; font-size: 16px;">
                  Go to Dashboard
                </a>"#

/-- What follows the URL in the privacy-policy anchor of the welcome e-mail. -/
def privacyAnchorRest : String :=
  "/privacy/policy\" style=\"color: #6B7280; text-decoration: none;\">Privacy Policy</a>"

/-- What follows the URL in the terms-of-service anchor of the welcome e-mail. -/
def termsAnchorRest : String :=
  "/privacy/terms\" style=\"color: #6B7280; text-decoration: none;\">Terms of Service</a>"

/-- The three sends of the test utility for a destination, in the order of the source. -/
def threeSends (env : Env) (year1 year2 year3 : Int) (provider : Provider)
    (destination : GoString) : List Outcome :=
  [SendVerificationEmail year1 provider (NewEmailService env).1 destination (utf8 "TEST123"),
   SendPasswordResetEmail year2 provider (NewEmailService env).1 destination
     (utf8 "RESET456") [utf8 "Test User"],
   SendWelcomeEmail env year3 provider (NewEmailService env).1 destination
     (utf8 "Test User")]

/-- The body preview of the development-mode log as the claim words it: the first 200
bytes of the HTML body followed by "..." when that body is longer than 200 bytes, the
plain-text body otherwise. -/
def devPreview (opts : EmailOptions) : GoString :=
  if 200 < opts.HTML.length then opts.HTML.take 200 ++ utf8 "..." else opts.Text

/-! ## Concrete inputs -/

/-- The environment in which only `ENV=development` is set. -/
def developmentEnv : Env :=
  fun k => if k = utf8 "ENV" then some (utf8 "development") else none

/-- The environment of the test "with all environment variables set". -/
def configuredEnv : Env := fun k =>
  if k = utf8 "SENDGRID_API_KEY" then some (utf8 "test-api-key")
  else if k = utf8 "SENDGRID_FROM_EMAIL" then some (utf8 "test@example.com")
  else if k = utf8 "SENDGRID_FROM_NAME" then some (utf8 "Test Service")
  else if k = utf8 "ENV" then some (utf8 "production")
  else none

/-- An environment in which `SENDGRID_FROM_EMAIL` is set, to the empty string. -/
def emptySenderEnv : Env :=
  fun k => if k = utf8 "SENDGRID_FROM_EMAIL" then some [] else none

/-- A provider that answers every call with status 500 and body "server error". -/
def rejectingProvider : Provider :=
  fun _ => .ok { StatusCode := 500, Body := utf8 "server error" }

/-- A production-mode notifier. -/
def productionService : EmailService :=
  { apiKey := utf8 "test-key", fromEmail := utf8 "noreply@yourdomain.com",
    fromName := utf8 "Sponsoration", isDev := false }

/-- The envelope of the test "valid email with all fields". -/
def sampleOptions : EmailOptions :=
  { To := utf8 "test@example.com", Subject := utf8 "Test Email",
    Text := utf8 "This is a test", HTML := utf8 "<p>This is a test</p>" }

/-- A provider that fails at transport level for the verification e-mail only. -/
def firstFailsProvider : Provider := fun call =>
  if call.message.Subject = utf8 "Verify Your Email Address" then .error (utf8 "timeout")
  else .ok { StatusCode := 202, Body := [] }

/-- The environment in which only `ENV=production` is set. -/
def productionEnv : Env :=
  fun k => if k = utf8 "ENV" then some (utf8 "production") else none

/-- An envelope with a short HTML body and no plain-text body (the test "valid email with
only html"). -/
def htmlOnlyOptions : EmailOptions :=
  { To := utf8 "test@example.com", Subject := utf8 "Test Email", Text := [],
    HTML := utf8 "<p>This is a test</p>" }

/-- An envelope whose HTML body is 201 bytes long. -/
def longHtmlOptions : EmailOptions :=
  { To := utf8 "test@example.com", Subject := utf8 "Test Email",
    Text := utf8 "This is a test", HTML := List.replicate 201 120 }

/-- The notifier of the default configuration, in development mode. -/
def developmentService : EmailService :=
  { apiKey := [], fromEmail := utf8 "noreply@yourdomain.com",
    fromName := utf8 "Sponsoration", isDev := true }

/-! ## Lemmas on formatting, segments and occurrences -/

theorem doPrintf_of_verb (w : Bool) (v : UInt8) (a : Arg) (args : List Arg) :
    ∀ f : GoString, verbOf f = some v →
      doPrintf w f (a :: args) =
        match printArg w v a, doPrintf w (afterVerb f) args with
        | some x, some r => some (litBefore f ++ (x ++ r))
        | _, _ => none
  | [], h => by simp [verbOf] at h
  | [c], h => by
    by_cases hc : c = percent
    · simp [verbOf, hc] at h
    · simp [verbOf, hc] at h
  | c :: verb :: rest, h => by
    by_cases hc : c = percent
    · by_cases hv : verb = percent
      · have h' : verbOf rest = some v := by simpa [verbOf, hc, hv] using h
        have ih := doPrintf_of_verb w v a args rest h'
        simp only [doPrintf, litBefore, afterVerb, hc, hv, ih, ne_eq, not_true_eq_false,
          if_false, if_true]
        cases printArg w v a <;> cases doPrintf w (afterVerb rest) args <;> simp
      · have h' : verb = v := by simpa [verbOf, hc, hv] using h
        subst h'
        simp only [doPrintf, litBefore, afterVerb, hc, hv, ne_eq, not_true_eq_false,
          if_false, if_true]
        cases printArg w verb a <;> cases doPrintf w rest args <;> simp
    · have h' : verbOf (verb :: rest) = some v := by simpa [verbOf, hc] using h
      have ih := doPrintf_of_verb w v a args (verb :: rest) h'
      rw [doPrintf, if_pos hc, ih]
      simp only [litBefore, afterVerb, hc, ne_eq, not_false_eq_true, if_true]
      cases printArg w v a <;> cases doPrintf w (afterVerb (verb :: rest)) args <;> simp

theorem doPrintf_of_plain (w : Bool) :
    ∀ f : GoString, plain f = true → doPrintf w f [] = some (litBefore f)
  | [], _ => by simp [doPrintf, litBefore]
  | [c], h => by
    by_cases hc : c = percent
    · simp [plain, hc] at h
    · simp [doPrintf, litBefore, hc]
  | c :: verb :: rest, h => by
    by_cases hc : c = percent
    · by_cases hv : verb = percent
      · have h' : plain rest = true := by simpa [plain, hc, hv] using h
        simp [doPrintf, litBefore, hc, hv, doPrintf_of_plain w rest h']
      · simp [plain, hc, hv] at h
    · have h' : plain (verb :: rest) = true := by simpa [plain, hc] using h
      rw [doPrintf, if_pos hc, doPrintf_of_plain w (verb :: rest) h']
      simp [litBefore, hc]

theorem occurrences_nil (pat : GoString) : occurrences pat [] = 0 := rfl

theorem isPrefixOf_eq_false_iff (l m : GoString) : l.isPrefixOf m = false ↔ ¬ l <+: m := by
  rw [← List.isPrefixOf_iff_prefix, Bool.not_eq_true]

theorem isSuffixOf_eq_false_iff (l m : GoString) : l.isSuffixOf m = false ↔ ¬ l <:+ m := by
  rw [← List.isSuffixOf_iff_suffix, Bool.not_eq_true]

theorem isPrefixOf_append_of_not_take (pat a y : GoString)
    (h : ¬ (pat.take a.length <:+ a) ∨ pat.length ≤ a.length) :
    pat.isPrefixOf (a ++ y) = pat.isPrefixOf a := by
  rw [Bool.eq_iff_iff, List.isPrefixOf_iff_prefix, List.isPrefixOf_iff_prefix]
  constructor
  · intro hp
    by_cases hl : pat.length ≤ a.length
    · exact List.prefix_of_prefix_length_le hp (List.prefix_append a y) hl
    · exfalso
      have hap : a <+: pat :=
        List.prefix_of_prefix_length_le (List.prefix_append a y) hp (by omega)
      rcases h with h | h
      · apply h
        rw [← List.prefix_iff_eq_take.mp hap]
      · exact hl h
  · intro hp
    exact hp.trans (List.prefix_append a y)

theorem occurrences_append_left (pat : GoString) :
    ∀ a y : GoString, leftSafe pat a = true →
      occurrences pat (a ++ y) = occurrences pat a + occurrences pat y
  | [], y, _ => by simp [occurrences]
  | c :: a, y, h => by
    have hsafe : ∀ k, k < pat.length → k ≠ 0 → ¬ (pat.take k <:+ c :: a) := by
      intro k hk hk0
      have := (List.all_eq_true.mp h) k (List.mem_range.mpr hk)
      rw [show (k == 0) = false by simpa using hk0, Bool.false_or, Bool.not_eq_true'] at this
      exact (isSuffixOf_eq_false_iff _ _).mp this
    have htail : leftSafe pat a = true := by
      rw [leftSafe, List.all_eq_true]
      intro k hk
      have hk' := List.mem_range.mp hk
      by_cases hk0 : k = 0
      · simp [hk0]
      · have := hsafe k hk' hk0
        have h2 : ¬ (pat.take k <:+ a) := fun hs => this (hs.trans (List.suffix_cons c a))
        rw [show (k == 0) = false by simpa using hk0, Bool.false_or, Bool.not_eq_true']
        exact (isSuffixOf_eq_false_iff _ _).mpr h2
    have ih := occurrences_append_left pat a y htail
    have hp : pat.isPrefixOf ((c :: a) ++ y) = pat.isPrefixOf (c :: a) := by
      apply isPrefixOf_append_of_not_take
      by_cases hl : pat.length ≤ (c :: a).length
      · exact Or.inr hl
      · exact Or.inl (hsafe _ (by omega) (by simp))
    show occurrences pat (c :: (a ++ y)) = _
    rw [occurrences, occurrences, ih]
    rw [show c :: (a ++ y) = (c :: a) ++ y from rfl, hp]
    omega

theorem occurrences_append_right (pat b z : GoString) (h : rightSafe pat b = true) :
    ∀ x : GoString,
      occurrences pat (x ++ (b ++ z)) = occurrences pat x + occurrences pat (b ++ z)
  | [] => by simp [occurrences]
  | c :: x => by
    have ih := occurrences_append_right pat b z h x
    have hp : pat.isPrefixOf ((c :: x) ++ (b ++ z)) = pat.isPrefixOf (c :: x) := by
      rw [Bool.eq_iff_iff, List.isPrefixOf_iff_prefix, List.isPrefixOf_iff_prefix]
      constructor
      · intro hp
        by_cases hl : pat.length ≤ (c :: x).length
        · exact List.prefix_of_prefix_length_le hp (List.prefix_append _ _) hl
        · exfalso
          have hap : (c :: x) <+: pat :=
            List.prefix_of_prefix_length_le (List.prefix_append _ _) hp (by omega)
          have hk : (c :: x).length < pat.length := by omega
          have hsafe := (List.all_eq_true.mp h) _ (List.mem_range.mpr hk)
          have hpat : pat = (c :: x) ++ pat.drop (c :: x).length := by
            conv_lhs => rw [← List.take_append_drop (c :: x).length pat]
            rw [← List.prefix_iff_eq_take.mp hap]
          rw [hpat] at hp
          have hv : pat.drop (c :: x).length <+: b ++ z :=
            (List.prefix_append_right_inj _).mp hp
          have hne : ((c :: x).length == 0) = false := by simp
          rw [hne, Bool.false_or, Bool.and_eq_true, Bool.not_eq_true', Bool.not_eq_true']
            at hsafe
          rcases List.prefix_or_prefix_of_prefix hv (List.prefix_append b z) with h1 | h1
          · exact (isPrefixOf_eq_false_iff _ _).mp hsafe.1 h1
          · exact (isPrefixOf_eq_false_iff _ _).mp hsafe.2 h1
      · intro hp
        exact hp.trans (List.prefix_append _ _)
    show occurrences pat (c :: (x ++ (b ++ z))) = _
    rw [occurrences, occurrences, ih]
    rw [show c :: (x ++ (b ++ z)) = (c :: x) ++ (b ++ z) from rfl, hp]
    omega

theorem occurrences_eq_zero_of_not_mem (pat : GoString) (c : UInt8) (hc : c ∈ pat) :
    ∀ s : GoString, c ∉ s → occurrences pat s = 0
  | [], _ => rfl
  | d :: s, h => by
    have hs : c ∉ s := fun hm => h (List.mem_cons_of_mem d hm)
    have hp : pat.isPrefixOf (d :: s) = false := by
      rw [Bool.eq_false_iff]
      intro hp
      rw [List.isPrefixOf_iff_prefix] at hp
      exact h (hp.subset hc)
    rw [occurrences, hp, occurrences_eq_zero_of_not_mem pat c hc s hs]
    simp

theorem occurrences_eq_zero_iff (pat : GoString) (hpat : pat ≠ []) :
    ∀ s : GoString, occurrences pat s = 0 ↔ ¬ pat <:+: s
  | [] => by simp [occurrences, hpat]
  | c :: s => by
    have ih := occurrences_eq_zero_iff pat hpat s
    rw [occurrences, List.infix_cons_iff, Nat.add_eq_zero, ih, not_or]
    by_cases hp : pat.isPrefixOf (c :: s) = true
    · simp [hp, List.isPrefixOf_iff_prefix.mp hp]
    · have hp' : ¬ pat <+: c :: s := fun h => hp (List.isPrefixOf_iff_prefix.mpr h)
      simp [hp, hp']

theorem digitChar_bytes (d : Nat) (hd : d < 10) :
    ∀ b ∈ String.utf8EncodeChar (Nat.digitChar d), isDecimalByte b = true := by
  interval_cases d <;> decide

theorem toDigitsCore_bytes :
    ∀ (fuel n : Nat) (ds : List Char),
      (∀ c ∈ ds, ∀ b ∈ String.utf8EncodeChar c, isDecimalByte b = true) →
      ∀ c ∈ Nat.toDigitsCore 10 fuel n ds, ∀ b ∈ String.utf8EncodeChar c, isDecimalByte b = true
  | 0, _, ds, h => by simpa [Nat.toDigitsCore] using h
  | fuel + 1, n, ds, h => by
    have hd : ∀ c ∈ Nat.digitChar (n % 10) :: ds,
        ∀ b ∈ String.utf8EncodeChar c, isDecimalByte b = true := by
      intro c hc
      rcases List.mem_cons.mp hc with rfl | hc
      · exact digitChar_bytes _ (Nat.mod_lt _ (by decide))
      · exact h c hc
    rw [Nat.toDigitsCore]
    by_cases h0 : n / 10 = 0
    · simpa [h0] using hd
    · simp only [h0, if_false]
      exact toDigitsCore_bytes fuel (n / 10) _ hd

theorem natRepr_bytes (n : Nat) : ∀ b ∈ utf8 (toString n), isDecimalByte b = true := by
  intro b hb
  rw [utf8, List.mem_flatMap] at hb
  obtain ⟨c, hc, hb⟩ := hb
  exact toDigitsCore_bytes (n + 1) n [] (by simp) c hc b hb

theorem utf8_append (s t : String) : utf8 (s ++ t) = utf8 s ++ utf8 t := by
  simp [utf8, String.data_append]

theorem formatInt_bytes (i : Int) : ∀ b ∈ formatInt i, isDecimalByte b = true := by
  intro b hb
  cases i with
  | ofNat m => exact natRepr_bytes m b hb
  | negSucc m =>
    have h : formatInt (Int.negSucc m) = utf8 "-" ++ utf8 (toString (m + 1)) := by
      rw [← utf8_append]; rfl
    rw [h, List.mem_append] at hb
    rcases hb with hb | hb
    · have : b = 45 := by simpa [utf8, String.utf8EncodeChar] using hb
      subst this; decide
    · exact natRepr_bytes _ b hb

theorem occurrences_formatInt (pat : GoString) (c : UInt8) (hc : c ∈ pat)
    (hd : isDecimalByte c = false) (i : Int) : occurrences pat (formatInt i) = 0 := by
  apply occurrences_eq_zero_of_not_mem pat c hc
  intro hm
  rw [formatInt_bytes i c hm] at hd
  exact Bool.noConfusion hd

theorem interleave_eq_litBefore_append (f : GoString) (xs : List GoString) :
    ∃ z, interleave f xs = litBefore f ++ z := by
  cases xs with
  | nil => exact ⟨[], by simp [interleave]⟩
  | cons x xs => exact ⟨_, rfl⟩

theorem infix_interleave (x : GoString) :
    ∀ (xs : List GoString) (f : GoString), x ∈ xs → x <:+: interleave f xs
  | [], _, h => by simp at h
  | y :: ys, f, h => by
    rw [interleave]
    rcases List.mem_cons.mp h with rfl | h
    · exact ⟨litBefore f, interleave (afterVerb f) ys, by simp⟩
    · have ih := infix_interleave x ys (afterVerb f) h
      exact ih.trans ⟨litBefore f ++ y, [], by simp⟩

theorem prefix_interleave (f : GoString) (xs : List GoString) :
    litBefore f <+: interleave f xs := by
  obtain ⟨z, hz⟩ := interleave_eq_litBefore_append f xs
  exact ⟨z, hz.symm⟩

theorem occurrences_interleave (pat : GoString) :
    ∀ (xs : List GoString) (f : GoString), safeFor pat xs.length f = true →
      occurrences pat (interleave f xs) =
        litOccurrences pat xs.length f + (xs.map (occurrences pat)).sum
  | [], f, _ => by simp [interleave, litOccurrences]
  | x :: xs, f, h => by
    simp only [List.length_cons, safeFor, Bool.and_eq_true] at h
    obtain ⟨⟨hl, hr⟩, hrest⟩ := h
    obtain ⟨z, hz⟩ := interleave_eq_litBefore_append (afterVerb f) xs
    have ih := occurrences_interleave pat xs (afterVerb f) hrest
    rw [interleave, occurrences_append_left pat _ _ hl, hz,
      occurrences_append_right pat _ z hr x, ← hz, ih]
    simp only [List.length_cons, litOccurrences, List.map_cons, List.sum_cons]
    omega

set_option maxRecDepth 100000 in
theorem verification_render (year : Int) (code : GoString) :
    getVerificationEmailTemplate year code =
      interleave (utf8 verificationFormat) [code, formatInt year] := by
  have h0 : verbOf (formatTail 0 (utf8 verificationFormat)) = some 115 := by decide!
  have h1 : verbOf (formatTail 1 (utf8 verificationFormat)) = some 100 := by decide!
  have h2 : plain (formatTail 2 (utf8 verificationFormat)) = true := by decide!
  unfold getVerificationEmailTemplate Sprintf
  rw [show doPrintf false (utf8 verificationFormat) = doPrintf false
      (formatTail 0 (utf8 verificationFormat)) from rfl,
    doPrintf_of_verb _ _ _ _ _ h0,
    show afterVerb (formatTail 0 (utf8 verificationFormat))
      = formatTail 1 (utf8 verificationFormat) from rfl,
    doPrintf_of_verb _ _ _ _ _ h1,
    show afterVerb (formatTail 1 (utf8 verificationFormat))
      = formatTail 2 (utf8 verificationFormat) from rfl,
    doPrintf_of_plain _ _ h2]
  rfl

set_option maxRecDepth 100000 in
theorem passwordReset_render (year : Int) (code greeting : GoString) :
    getPasswordResetEmailTemplate year code greeting =
      interleave (utf8 passwordResetFormat) [greeting, code, formatInt year] := by
  have h0 : verbOf (formatTail 0 (utf8 passwordResetFormat)) = some 115 := by decide!
  have h1 : verbOf (formatTail 1 (utf8 passwordResetFormat)) = some 115 := by decide!
  have h2 : verbOf (formatTail 2 (utf8 passwordResetFormat)) = some 100 := by decide!
  have h3 : plain (formatTail 3 (utf8 passwordResetFormat)) = true := by decide!
  unfold getPasswordResetEmailTemplate Sprintf
  rw [show doPrintf false (utf8 passwordResetFormat) = doPrintf false
      (formatTail 0 (utf8 passwordResetFormat)) from rfl,
    doPrintf_of_verb _ _ _ _ _ h0,
    show afterVerb (formatTail 0 (utf8 passwordResetFormat))
      = formatTail 1 (utf8 passwordResetFormat) from rfl,
    doPrintf_of_verb _ _ _ _ _ h1,
    show afterVerb (formatTail 1 (utf8 passwordResetFormat))
      = formatTail 2 (utf8 passwordResetFormat) from rfl,
    doPrintf_of_verb _ _ _ _ _ h2,
    show afterVerb (formatTail 2 (utf8 passwordResetFormat))
      = formatTail 3 (utf8 passwordResetFormat) from rfl,
    doPrintf_of_plain _ _ h3]
  rfl

set_option maxRecDepth 100000 in
theorem welcome_render (year : Int) (name appURL : GoString) :
    getWelcomeEmailTemplate year name appURL =
      interleave (utf8 welcomeFormat) [name, appURL, formatInt year, appURL, appURL] := by
  have h0 : verbOf (formatTail 0 (utf8 welcomeFormat)) = some 115 := by decide!
  have h1 : verbOf (formatTail 1 (utf8 welcomeFormat)) = some 115 := by decide!
  have h2 : verbOf (formatTail 2 (utf8 welcomeFormat)) = some 100 := by decide!
  have h3 : verbOf (formatTail 3 (utf8 welcomeFormat)) = some 115 := by decide!
  have h4 : verbOf (formatTail 4 (utf8 welcomeFormat)) = some 115 := by decide!
  have h5 : plain (formatTail 5 (utf8 welcomeFormat)) = true := by decide!
  unfold getWelcomeEmailTemplate Sprintf
  rw [show doPrintf false (utf8 welcomeFormat) = doPrintf false
      (formatTail 0 (utf8 welcomeFormat)) from rfl,
    doPrintf_of_verb _ _ _ _ _ h0,
    show afterVerb (formatTail 0 (utf8 welcomeFormat))
      = formatTail 1 (utf8 welcomeFormat) from rfl,
    doPrintf_of_verb _ _ _ _ _ h1,
    show afterVerb (formatTail 1 (utf8 welcomeFormat))
      = formatTail 2 (utf8 welcomeFormat) from rfl,
    doPrintf_of_verb _ _ _ _ _ h2,
    show afterVerb (formatTail 2 (utf8 welcomeFormat))
      = formatTail 3 (utf8 welcomeFormat) from rfl,
    doPrintf_of_verb _ _ _ _ _ h3,
    show afterVerb (formatTail 3 (utf8 welcomeFormat))
      = formatTail 4 (utf8 welcomeFormat) from rfl,
    doPrintf_of_verb _ _ _ _ _ h4,
    show afterVerb (formatTail 4 (utf8 welcomeFormat))
      = formatTail 5 (utf8 welcomeFormat) from rfl,
    doPrintf_of_plain _ _ h5]
  rfl

set_option maxRecDepth 100000 in
theorem verification_safe_html :
    safeFor (utf8 "</html>") 2 (utf8 verificationFormat) = true ∧
    litOccurrences (utf8 "</html>") 2 (utf8 verificationFormat) = 1 := by decide!

set_option maxRecDepth 100000 in
theorem passwordReset_safe_html :
    safeFor (utf8 "</html>") 3 (utf8 passwordResetFormat) = true ∧
    litOccurrences (utf8 "</html>") 3 (utf8 passwordResetFormat) = 1 := by decide!

set_option maxRecDepth 100000 in
theorem welcome_safe_html :
    safeFor (utf8 "</html>") 5 (utf8 welcomeFormat) = true ∧
    litOccurrences (utf8 "</html>") 5 (utf8 welcomeFormat) = 1 := by decide!

theorem sprintf_hi (n : GoString) :
    Sprintf "Hi %s," [.str n] = utf8 "Hi " ++ n ++ utf8 "," := by
  rfl

theorem sprintf_reset_text (code : GoString) :
    Sprintf "Your password reset code is: %s" [.str code]
      = utf8 "Your password reset code is: " ++ code := by
  have h : Sprintf "Your password reset code is: %s" [.str code]
      = utf8 "Your password reset code is: " ++ (code ++ []) := rfl
  rw [h, List.append_nil]

theorem sprintf_welcome_text (name : GoString) :
    Sprintf "Welcome %s! Thank you for joining Sponsoration." [.str name]
      = utf8 "Welcome " ++ name ++ utf8 "! Thank you for joining Sponsoration." := by
  rfl

theorem errorf_sendgrid (status : Int) (body : GoString) :
    Errorf "sendgrid error: %d - %s" [.int status, .str body]
      = utf8 "sendgrid error: " ++ formatInt status ++ utf8 " - " ++ body := by
  have h : Errorf "sendgrid error: %d - %s" [.int status, .str body]
      = utf8 "sendgrid error: " ++ (formatInt status ++ (utf8 " - " ++ (body ++ []))) := rfl
  rw [h, List.append_nil]
  simp only [List.append_assoc]

theorem infix_between {pre post l m : GoString} (x z : GoString)
    (hl : pre.isSuffixOf l = true) (hm : post.isPrefixOf m = true) :
    pre ++ x ++ post <:+: l ++ (x ++ (m ++ z)) := by
  obtain ⟨a, rfl⟩ := List.isSuffixOf_iff_suffix.mp hl
  obtain ⟨b, rfl⟩ := List.isPrefixOf_iff_prefix.mp hm
  exact ⟨a, b ++ z, by simp⟩

set_option maxRecDepth 100000 in
theorem welcome_anchor_segments :
    (utf8 anchorOpen).isSuffixOf (litBefore (formatTail 1 (utf8 welcomeFormat))) = true ∧
    (utf8 dashboardAnchorRest).isPrefixOf
      (litBefore (formatTail 2 (utf8 welcomeFormat))) = true ∧
    (utf8 anchorOpen).isSuffixOf (litBefore (formatTail 3 (utf8 welcomeFormat))) = true ∧
    (utf8 privacyAnchorRest).isPrefixOf
      (litBefore (formatTail 4 (utf8 welcomeFormat))) = true ∧
    (utf8 anchorOpen).isSuffixOf (litBefore (formatTail 4 (utf8 welcomeFormat))) = true ∧
    (utf8 termsAnchorRest).isPrefixOf
      (litBefore (formatTail 5 (utf8 welcomeFormat))) = true := by
  decide!

theorem welcome_anchors (year : Int) (name u : GoString) :
    utf8 anchorOpen ++ u ++ utf8 dashboardAnchorRest <:+: getWelcomeEmailTemplate year name u ∧
    utf8 anchorOpen ++ u ++ utf8 privacyAnchorRest <:+: getWelcomeEmailTemplate year name u ∧
    utf8 anchorOpen ++ u ++ utf8 termsAnchorRest <:+: getWelcomeEmailTemplate year name u := by
  obtain ⟨h1, h2, h3, h4, h5, h6⟩ := welcome_anchor_segments
  have hr : getWelcomeEmailTemplate year name u =
      litBefore (formatTail 0 (utf8 welcomeFormat)) ++ (name ++
      (litBefore (formatTail 1 (utf8 welcomeFormat)) ++ (u ++
      (litBefore (formatTail 2 (utf8 welcomeFormat)) ++ (formatInt year ++
      (litBefore (formatTail 3 (utf8 welcomeFormat)) ++ (u ++
      (litBefore (formatTail 4 (utf8 welcomeFormat)) ++ (u ++
      (litBefore (formatTail 5 (utf8 welcomeFormat)) ++ [])))))))))) := by
    rw [welcome_render, List.append_nil]
    rfl
  rw [hr]
  have step : ∀ {p a t : GoString}, p <:+: t → p <:+: a ++ t :=
    fun h => h.trans (List.suffix_append _ _).isInfix
  exact ⟨step (step (infix_between u _ h1 h2)),
    step (step (step (step (step (step (infix_between u _ h3 h4)))))),
    step (step (step (step (step (step (step (step
      (infix_between u _ h5 h6))))))))⟩

set_option maxRecDepth 100000 in
theorem templates_start :
    (utf8 "\n<!DOCTYPE html>").isPrefixOf (litBefore (utf8 verificationFormat)) = true ∧
    (utf8 "\n<!DOCTYPE html>").isPrefixOf (litBefore (utf8 passwordResetFormat)) = true ∧
    (utf8 "\n<!DOCTYPE html>").isPrefixOf (litBefore (utf8 welcomeFormat)) = true := by
  decide!

theorem prefix_of_interleave {p f : GoString} (xs : List GoString)
    (h : p.isPrefixOf (litBefore f) = true) : p <+: interleave f xs :=
  (List.isPrefixOf_iff_prefix.mp h).trans (prefix_interleave f xs)

theorem html_not_decimal : (60 : UInt8) ∈ utf8 "</html>" ∧ isDecimalByte 60 = false := by
  decide

theorem occurrences_interleave_eq (pat : GoString) (n k : Nat) (xs : List GoString)
    (f : GoString) (hn : xs.length = n) (hs : safeFor pat n f = true)
    (hk : litOccurrences pat n f = k) :
    occurrences pat (interleave f xs) = k + (xs.map (occurrences pat)).sum := by
  subst hn hk
  exact occurrences_interleave pat xs f hs

theorem verification_closing_tags (year : Int) (code : GoString) :
    occurrences (utf8 "</html>") (getVerificationEmailTemplate year code) =
      1 + occurrences (utf8 "</html>") code := by
  rw [verification_render, occurrences_interleave_eq (utf8 "</html>") 2 1
    [code, formatInt year] _ rfl verification_safe_html.1 verification_safe_html.2]
  simp [occurrences_formatInt _ 60 html_not_decimal.1 html_not_decimal.2]

theorem passwordReset_closing_tags (year : Int) (code greeting : GoString) :
    occurrences (utf8 "</html>") (getPasswordResetEmailTemplate year code greeting) =
      1 + occurrences (utf8 "</html>") greeting + occurrences (utf8 "</html>") code := by
  rw [passwordReset_render, occurrences_interleave_eq (utf8 "</html>") 3 1
    [greeting, code, formatInt year] _ rfl passwordReset_safe_html.1
    passwordReset_safe_html.2]
  simp [occurrences_formatInt _ 60 html_not_decimal.1 html_not_decimal.2]
  omega

theorem welcome_closing_tags (year : Int) (name appURL : GoString) :
    occurrences (utf8 "</html>") (getWelcomeEmailTemplate year name appURL) =
      1 + occurrences (utf8 "</html>") name + 3 * occurrences (utf8 "</html>") appURL := by
  rw [welcome_render, occurrences_interleave_eq (utf8 "</html>") 5 1
    [name, appURL, formatInt year, appURL, appURL] _ rfl welcome_safe_html.1
    welcome_safe_html.2]
  simp [occurrences_formatInt _ 60 html_not_decimal.1 html_not_decimal.2]
  omega
/-! ### Lemmas for wording, placeholders, the log and the test utility -/

set_option maxRecDepth 100000 in
theorem verification_foreign_wording :
    (safeFor (utf8 "Password") 2 (utf8 verificationFormat) = true ∧
      litOccurrences (utf8 "Password") 2 (utf8 verificationFormat) = 0) ∧
    (safeFor (utf8 "Welcome") 2 (utf8 verificationFormat) = true ∧
      litOccurrences (utf8 "Welcome") 2 (utf8 verificationFormat) = 0) := by decide!

set_option maxRecDepth 100000 in
theorem passwordReset_foreign_wording :
    (safeFor (utf8 "Verify") 3 (utf8 passwordResetFormat) = true ∧
      litOccurrences (utf8 "Verify") 3 (utf8 passwordResetFormat) = 0) ∧
    (safeFor (utf8 "Welcome") 3 (utf8 passwordResetFormat) = true ∧
      litOccurrences (utf8 "Welcome") 3 (utf8 passwordResetFormat) = 0) := by decide!

set_option maxRecDepth 100000 in
theorem welcome_foreign_wording :
    (safeFor (utf8 "Verify") 5 (utf8 welcomeFormat) = true ∧
      litOccurrences (utf8 "Verify") 5 (utf8 welcomeFormat) = 0) ∧
    (safeFor (utf8 "Reset") 5 (utf8 welcomeFormat) = true ∧
      litOccurrences (utf8 "Reset") 5 (utf8 welcomeFormat) = 0) ∧
    (safeFor (utf8 "code") 5 (utf8 welcomeFormat) = true ∧
      litOccurrences (utf8 "code") 5 (utf8 welcomeFormat) = 0) := by decide!

set_option maxRecDepth 100000 in
theorem templates_placeholder :
    (safeFor (utf8 "%s") 2 (utf8 verificationFormat) = true ∧
      litOccurrences (utf8 "%s") 2 (utf8 verificationFormat) = 0) ∧
    (safeFor (utf8 "%s") 3 (utf8 passwordResetFormat) = true ∧
      litOccurrences (utf8 "%s") 3 (utf8 passwordResetFormat) = 0) ∧
    (safeFor (utf8 "%s") 5 (utf8 welcomeFormat) = true ∧
      litOccurrences (utf8 "%s") 5 (utf8 welcomeFormat) = 0) := by decide!

theorem absent_interleave (pat : GoString) (hpat : pat ≠ []) (n : Nat) (xs : List GoString)
    (f : GoString) (hn : xs.length = n) (hs : safeFor pat n f = true)
    (hk : litOccurrences pat n f = 0) (hx : ∀ x ∈ xs, occurrences pat x = 0) :
    ¬ pat <:+: interleave f xs := by
  rw [← occurrences_eq_zero_iff pat hpat, occurrences_interleave_eq pat n 0 xs f hn hs hk,
    Nat.zero_add, List.sum_eq_zero]
  intro k hkm
  obtain ⟨x, hxm, rfl⟩ := List.mem_map.mp hkm
  exact hx x hxm

theorem verification_absent (pat : GoString) (hpat : pat ≠ []) (c : UInt8) (hc : c ∈ pat)
    (hd : isDecimalByte c = false)
    (hs : safeFor pat 2 (utf8 verificationFormat) = true ∧
      litOccurrences pat 2 (utf8 verificationFormat) = 0)
    (year : Int) (code : GoString) (hcode : ¬ pat <:+: code) :
    ¬ pat <:+: getVerificationEmailTemplate year code := by
  rw [verification_render]
  refine absent_interleave pat hpat 2 _ _ rfl hs.1 hs.2 ?_
  intro x hx
  simp only [List.mem_cons, List.mem_singleton, List.not_mem_nil, or_false] at hx
  rcases hx with rfl | rfl
  · exact (occurrences_eq_zero_iff pat hpat _).mpr hcode
  · exact occurrences_formatInt pat c hc hd year

theorem passwordReset_absent (pat : GoString) (hpat : pat ≠ []) (c : UInt8) (hc : c ∈ pat)
    (hd : isDecimalByte c = false)
    (hs : safeFor pat 3 (utf8 passwordResetFormat) = true ∧
      litOccurrences pat 3 (utf8 passwordResetFormat) = 0)
    (year : Int) (code greeting : GoString) (hcode : ¬ pat <:+: code)
    (hgreeting : ¬ pat <:+: greeting) :
    ¬ pat <:+: getPasswordResetEmailTemplate year code greeting := by
  rw [passwordReset_render]
  refine absent_interleave pat hpat 3 _ _ rfl hs.1 hs.2 ?_
  intro x hx
  simp only [List.mem_cons, List.mem_singleton, List.not_mem_nil, or_false] at hx
  rcases hx with rfl | rfl | rfl
  · exact (occurrences_eq_zero_iff pat hpat _).mpr hgreeting
  · exact (occurrences_eq_zero_iff pat hpat _).mpr hcode
  · exact occurrences_formatInt pat c hc hd year

theorem welcome_absent (pat : GoString) (hpat : pat ≠ []) (c : UInt8) (hc : c ∈ pat)
    (hd : isDecimalByte c = false)
    (hs : safeFor pat 5 (utf8 welcomeFormat) = true ∧
      litOccurrences pat 5 (utf8 welcomeFormat) = 0)
    (year : Int) (name appURL : GoString) (hname : ¬ pat <:+: name)
    (hurl : ¬ pat <:+: appURL) :
    ¬ pat <:+: getWelcomeEmailTemplate year name appURL := by
  rw [welcome_render]
  refine absent_interleave pat hpat 5 _ _ rfl hs.1 hs.2 ?_
  intro x hx
  simp only [List.mem_cons, List.mem_singleton, List.not_mem_nil, or_false] at hx
  rcases hx with rfl | rfl | rfl | rfl | rfl
  · exact (occurrences_eq_zero_iff pat hpat _).mpr hname
  · exact (occurrences_eq_zero_iff pat hpat _).mpr hurl
  · exact occurrences_formatInt pat c hc hd year
  · exact (occurrences_eq_zero_iff pat hpat _).mpr hurl
  · exact (occurrences_eq_zero_iff pat hpat _).mpr hurl

theorem occurrences_pos_infix_interleave (pat f : GoString) (hpat : pat ≠ [])
    (xs : List GoString) (h : occurrences pat (litBefore f) ≠ 0) :
    pat <:+: interleave f xs := by
  have hin : pat <:+: litBefore f := by
    by_contra hc
    exact h ((occurrences_eq_zero_iff pat hpat _).mpr hc)
  exact hin.trans (prefix_interleave f xs).isInfix

set_option maxRecDepth 100000 in
theorem templates_percent_literal :
    occurrences (utf8 "width=\"100%\"") (litBefore (utf8 verificationFormat)) = 1 ∧
    occurrences (utf8 "width=\"100%\"") (litBefore (utf8 passwordResetFormat)) = 1 ∧
    occurrences (utf8 "width=\"100%\"") (litBefore (utf8 welcomeFormat)) = 1 := by decide!

theorem main_sends (args : List GoString) (env : Env) (year1 year2 year3 : Int)
    (provider : Provider) :
    (main args env year1 year2 year3 provider).sends =
      threeSends env year1 year2 year3 provider
        (match args with
          | _ :: first :: _ => first
          | _ => utf8 "test@example.com") := by
  rcases args with _ | ⟨prog, _ | ⟨first, more⟩⟩ <;> rfl

theorem main_exitCode (args : List GoString) (env : Env) (year1 year2 year3 : Int)
    (provider : Provider) :
    (main args env year1 year2 year3 provider).exitCode =
      if ∀ o ∈ (main args env year1 year2 year3 provider).sends, o.err = none then 0
      else 1 := by
  rcases args with _ | ⟨prog, _ | ⟨first, more⟩⟩ <;>
    simp only [main, List.mem_cons, List.mem_singleton, List.not_mem_nil, or_false,
      forall_eq_or_imp, forall_eq, Bool.and_eq_true, Option.isNone_iff_eq_none, and_assoc]

theorem sendEmail_production_calls (provider : Provider) (s : EmailService)
    (opts : EmailOptions) (h : s.isDev = false) :
    (SendEmail provider s opts).calls = [productionCall s opts] := by
  cases hp : provider (productionCall s opts) with
  | error e =>
    have hp' := hp
    simp only [productionCall] at hp'
    simp [SendEmail, h, hp', productionCall]
  | ok response =>
    have hp' := hp
    simp only [productionCall] at hp'
    by_cases hs : response.StatusCode ≥ 400
    · simp [SendEmail, h, hp', productionCall, hs]
    · simp [SendEmail, h, hp', productionCall, hs]

theorem threeSends_production_calls (env : Env) (year1 year2 year3 : Int)
    (provider : Provider) (destination : GoString)
    (h : (NewEmailService env).1.isDev = false) :
    (threeSends env year1 year2 year3 provider destination).map (fun o => o.calls.length)
      = [1, 1, 1] := by
  simp only [threeSends, SendVerificationEmail, SendPasswordResetEmail, SendWelcomeEmail,
    List.map_cons, List.map_nil, sendEmail_production_calls _ _ _ h, List.length_singleton]

theorem sprintf_from (name address : GoString) :
    Sprintf "From: %s <%s>" [.str name, .str address]
      = utf8 "From: " ++ name ++ utf8 " <" ++ address ++ utf8 ">" := by
  have h : Sprintf "From: %s <%s>" [.str name, .str address]
      = utf8 "From: " ++ (name ++ (utf8 " <" ++ (address ++ utf8 ">"))) := rfl
  rw [h]
  simp only [List.append_assoc]

theorem sprintf_to (address : GoString) :
    Sprintf "To: %s" [.str address] = utf8 "To: " ++ address := by
  have h : Sprintf "To: %s" [.str address] = utf8 "To: " ++ (address ++ []) := rfl
  rw [h, List.append_nil]

theorem sprintf_subject (subject : GoString) :
    Sprintf "Subject: %s" [.str subject] = utf8 "Subject: " ++ subject := by
  have h : Sprintf "Subject: %s" [.str subject] = utf8 "Subject: " ++ (subject ++ []) := rfl
  rw [h, List.append_nil]

theorem sprintf_content (text : GoString) :
    Sprintf "Content: %s" [.str text] = utf8 "Content: " ++ text := by
  have h : Sprintf "Content: %s" [.str text] = utf8 "Content: " ++ (text ++ []) := rfl
  rw [h, List.append_nil]

theorem sprintf_content_cut (html : GoString) :
    Sprintf "Content: %s..." [.str html] = utf8 "Content: " ++ (html ++ utf8 "...") := by
  rfl

theorem sendEmail_dev_log (provider : Provider) (s : EmailService) (opts : EmailOptions)
    (h : s.isDev = true) :
    SendEmail provider s opts =
      { err := none
        log := [utf8 "📧 Email (DEV MODE - Not actually sent):",
          utf8 "From: " ++ s.fromName ++ utf8 " <" ++ s.fromEmail ++ utf8 ">",
          utf8 "To: " ++ opts.To,
          utf8 "Subject: " ++ opts.Subject,
          utf8 "Content: " ++ devPreview opts]
        calls := [] } := by
  unfold SendEmail devPreview
  rw [if_pos h, sprintf_from, sprintf_to, sprintf_subject, sprintf_content,
    sprintf_content_cut]
  by_cases hl : 200 < opts.HTML.length
  · simp only [gt_iff_lt, hl, if_true]
  · simp only [gt_iff_lt, hl, if_false]

/-! ## Claims -/

/-- C1: a notifier built from an environment whose `ENV` is empty or "development"
returns no error and makes no provider call: for `SendEmail` on every envelope, and for
`SendVerificationEmail`, `SendPasswordResetEmail` and `SendWelcomeEmail` on all
arguments, whatever the provider would answer. -/
theorem dev_mode_never_sends (env : Env)
    (h : Getenv env "ENV" = [] ∨ Getenv env "ENV" = utf8 "development")
    (provider : Provider) (opts : EmailOptions) (runEnv : Env) (year : Int)
    (email code name : GoString) (userName : List GoString) :
    (NewEmailService env).1.isDev = true ∧
    (SendEmail provider (NewEmailService env).1 opts).silent ∧
    (SendVerificationEmail year provider (NewEmailService env).1 email code).silent ∧
    (SendPasswordResetEmail year provider (NewEmailService env).1 email code
      userName).silent ∧
    (SendWelcomeEmail runEnv year provider (NewEmailService env).1 email name).silent := by
  have hdev : (NewEmailService env).1.isDev = true := by
    rcases h with h | h <;> simp [NewEmailService, h]
  have hsend : ∀ o : EmailOptions, (SendEmail provider (NewEmailService env).1 o).silent := by
    intro o
    simp [SendEmail, hdev, Outcome.silent]
  exact ⟨hdev, hsend _, hsend _, hsend _, hsend _⟩

/-- C1 at a concrete input: only `ENV=development` is set, and the provider would reject
every call. -/
theorem dev_mode_never_sends_witness :
    (Getenv developmentEnv "ENV" = [] ∨ Getenv developmentEnv "ENV" = utf8 "development") ∧
    (SendVerificationEmail 2024 rejectingProvider (NewEmailService developmentEnv).1
      (utf8 "u@x.com") (utf8 "ABC123")).silent :=
  ⟨Or.inr (by decide),
    (dev_mode_never_sends developmentEnv (Or.inr (by decide)) rejectingProvider
      ⟨[], [], [], []⟩ developmentEnv 2024 (utf8 "u@x.com") (utf8 "ABC123")
      (utf8 "Jane") []).2.2.1⟩

/-- C2: `NewEmailService` reports development mode exactly when the value of `ENV` is
empty or is "development", and production mode exactly when it is non-empty and is not
"development" (so for "production", "Development" and "dev"); environments that agree
on `ENV` agree on the mode, whatever the API key and the sender settings are. -/
theorem newEmailService_isDev_iff (env : Env) :
    ((NewEmailService env).1.isDev = true ↔
      (Getenv env "ENV" = [] ∨ Getenv env "ENV" = utf8 "development")) ∧
    ((NewEmailService env).1.isDev = false ↔
      (Getenv env "ENV" ≠ [] ∧ Getenv env "ENV" ≠ utf8 "development")) ∧
    (Getenv env "ENV" ∈ [utf8 "production", utf8 "Development", utf8 "dev"] →
      (NewEmailService env).1.isDev = false) ∧
    (∀ other : Env, Getenv other "ENV" = Getenv env "ENV" →
      (NewEmailService other).1.isDev = (NewEmailService env).1.isDev) := by
  refine ⟨?_, ?_, ?_, ?_⟩
  · simp [NewEmailService, or_comm]
  · simp [NewEmailService, and_comm]
  · intro h
    simp only [List.mem_cons, List.mem_singleton, List.not_mem_nil, or_false] at h
    rcases h with h | h | h <;>
      · simp only [NewEmailService, h]
        decide
  · intro other h
    simp only [NewEmailService, h]

/-- C3: in production mode `SendEmail` makes exactly one provider call, the one for its
envelope, and returns an error exactly when that call ends in a transport error or in a
response whose status code is 400 or more; otherwise (a response below 400) it returns
no error. -/
theorem production_single_attempt (provider : Provider) (s : EmailService)
    (opts : EmailOptions) (h : s.isDev = false) :
    (SendEmail provider s opts).calls = [productionCall s opts] ∧
    ((SendEmail provider s opts).err ≠ none ↔ isFailure (provider (productionCall s opts))) ∧
    ((SendEmail provider s opts).err = none ↔
      ∃ response, provider (productionCall s opts) = .ok response ∧
        response.StatusCode < 400) := by
  cases hp : provider (productionCall s opts) with
  | error e =>
    have hp' := hp
    simp only [productionCall] at hp'
    simp [SendEmail, h, hp', isFailure, productionCall]
  | ok response =>
    have hp' := hp
    simp only [productionCall] at hp'
    by_cases hs : response.StatusCode ≥ 400
    · simp [SendEmail, h, hp', isFailure, productionCall, hs]
    · simp [SendEmail, h, hp', isFailure, productionCall, hs]
      omega

/-- C3 at a concrete input: a production notifier and a provider answering 500. -/
theorem production_single_attempt_witness :
    productionService.isDev = false ∧
    (SendEmail rejectingProvider productionService sampleOptions).calls.length = 1 ∧
    (SendEmail rejectingProvider productionService sampleOptions).err ≠ none := by
  have h := production_single_attempt rejectingProvider productionService sampleOptions rfl
  refine ⟨rfl, ?_, ?_⟩
  · rw [h.1]; rfl
  · rw [h.2.1]
    show (400 : Int) ≤ 500
    decide

/-- C4: when the provider answers a production-mode send with status code `status ≥ 400`
and body `body`, the error message is "sendgrid error: ", the decimal rendering of the
status, " - " and the body; so it contains the decimal status and the body verbatim. -/
theorem rejection_message (provider : Provider) (s : EmailService) (opts : EmailOptions)
    (status : Int) (body : GoString) (h : s.isDev = false)
    (hp : provider (productionCall s opts) = .ok { StatusCode := status, Body := body })
    (hs : 400 ≤ status) :
    ∃ msg, (SendEmail provider s opts).err = some msg ∧
      msg = utf8 "sendgrid error: " ++ formatInt status ++ utf8 " - " ++ body ∧
      formatInt status <:+: msg ∧ body <:+: msg := by
  refine ⟨_, ?_, rfl, ?_, ?_⟩
  · have hp' := hp
    simp only [productionCall] at hp'
    simp only [SendEmail, h, hp', Bool.false_eq_true, if_false, ge_iff_le, hs, if_true,
      errorf_sendgrid]
  · exact ⟨utf8 "sendgrid error: ", utf8 " - " ++ body, by simp⟩
  · exact ⟨utf8 "sendgrid error: " ++ formatInt status ++ utf8 " - ", [], by simp⟩

/-- C4 at the input of the specification: status 500 and body "server error". -/
theorem rejection_message_witness :
    ∃ msg, (SendEmail rejectingProvider productionService sampleOptions).err = some msg ∧
      utf8 "500" <:+: msg ∧ utf8 "server error" <:+: msg := by
  obtain ⟨msg, h1, _, h3, h4⟩ :=
    rejection_message rejectingProvider productionService sampleOptions 500
      (utf8 "server error") rfl rfl (by decide)
  exact ⟨msg, h1, h3, h4⟩

/-- C5: `SendPasswordResetEmail` hands `SendEmail` the envelope addressed to `email`, with
subject "Reset Your Password", the text "Your password reset code is: " followed by the
code, and as HTML the password-reset template rendered with the code and with the
greeting "Hi n," when a first name `n` is supplied and non-empty, "Hello," otherwise;
names after the first do not change the result. -/
theorem passwordReset_envelope (year : Int) (provider : Provider) (s : EmailService)
    (email code : GoString) (userName : List GoString) :
    SendPasswordResetEmail year provider s email code userName =
      SendEmail provider s
        { To := email
          Subject := utf8 "Reset Your Password"
          Text := utf8 "Your password reset code is: " ++ code
          HTML := getPasswordResetEmailTemplate year code (greetingFor userName) } ∧
    (∀ (n : GoString) (more others : List GoString),
      SendPasswordResetEmail year provider s email code (n :: more) =
        SendPasswordResetEmail year provider s email code (n :: others)) ∧
    greetingFor [] = utf8 "Hello," ∧
    (∀ more, greetingFor ([] :: more) = utf8 "Hello,") ∧
    (∀ n more, n ≠ [] → greetingFor (n :: more) = utf8 "Hi " ++ n ++ utf8 ",") := by
  refine ⟨?_, ?_, rfl, fun _ => rfl, ?_⟩
  · cases userName with
    | nil => simp only [SendPasswordResetEmail, greetingFor, sprintf_reset_text, List.head?]
    | cons n more =>
      by_cases hn : n = []
      · simp [SendPasswordResetEmail, greetingFor, sprintf_reset_text, hn]
      · simp [SendPasswordResetEmail, greetingFor, sprintf_reset_text, sprintf_hi, hn]
  · intro n more others
    rfl
  · intro n more hn
    simp [greetingFor, hn]

/-- C6, as stated, fails: with `SENDGRID_FROM_EMAIL` set to the empty string the variable
is not unset, yet the sender address is the default, not the configured (empty) value. -/
theorem sender_set_empty_counterexample :
    emptySenderEnv (utf8 "SENDGRID_FROM_EMAIL") = some [] ∧
    (NewEmailService emptySenderEnv).1.fromEmail = utf8 "noreply@yourdomain.com" ∧
    (NewEmailService emptySenderEnv).1.fromEmail ≠ [] := by
  decide

/-- C6, amended: the sender address is "noreply@yourdomain.com" when
`SENDGRID_FROM_EMAIL` is unset or set to the empty string, and the configured value
otherwise; the sender name is "Sponsoration" when `SENDGRID_FROM_NAME` is unset or set
to the empty string, and the configured value otherwise. Each field depends on its own
variable only. -/
theorem newEmailService_sender (env : Env) :
    ((env (utf8 "SENDGRID_FROM_EMAIL") = none ∨ env (utf8 "SENDGRID_FROM_EMAIL") = some []) →
      (NewEmailService env).1.fromEmail = utf8 "noreply@yourdomain.com") ∧
    (∀ v, env (utf8 "SENDGRID_FROM_EMAIL") = some v → v ≠ [] →
      (NewEmailService env).1.fromEmail = v) ∧
    ((env (utf8 "SENDGRID_FROM_NAME") = none ∨ env (utf8 "SENDGRID_FROM_NAME") = some []) →
      (NewEmailService env).1.fromName = utf8 "Sponsoration") ∧
    (∀ v, env (utf8 "SENDGRID_FROM_NAME") = some v → v ≠ [] →
      (NewEmailService env).1.fromName = v) := by
  refine ⟨?_, ?_, ?_, ?_⟩
  · rintro (h | h) <;> simp [NewEmailService, Getenv, h]
  · intro v h hv
    simp [NewEmailService, Getenv, h, hv]
  · rintro (h | h) <;> simp [NewEmailService, Getenv, h]
  · intro v h hv
    simp [NewEmailService, Getenv, h, hv]

/-- C6 (amended) at concrete inputs: configured values are kept, a missing name defaults. -/
theorem newEmailService_sender_witness :
    (NewEmailService configuredEnv).1.fromEmail = utf8 "test@example.com" ∧
    (NewEmailService configuredEnv).1.fromName = utf8 "Test Service" ∧
    (NewEmailService emptySenderEnv).1.fromName = utf8 "Sponsoration" :=
  ⟨(newEmailService_sender configuredEnv).2.1 _ (by decide) (by decide),
    (newEmailService_sender configuredEnv).2.2.2 _ (by decide) (by decide),
    (newEmailService_sender emptySenderEnv).2.2.1 (Or.inl (by decide))⟩

/-- C7: `SendWelcomeEmail` resolves the application URL `u` (`APP_URL` when non-empty,
"http://localhost:8082" otherwise) and hands `SendEmail` the envelope addressed to
`email` with subject "Welcome to Sponsoration!" and as HTML the welcome template rendered
with the name and `u`. That HTML contains the name, the "Go to Dashboard" anchor with
`href="u"`, and the privacy and terms anchors with `href="u/privacy/policy"` and
`href="u/privacy/terms"`. -/
theorem welcome_envelope (env : Env) (year : Int) (provider : Provider) (s : EmailService)
    (email name : GoString) :
    SendWelcomeEmail env year provider s email name =
      SendEmail provider s
        { To := email
          Subject := utf8 "Welcome to Sponsoration!"
          Text := utf8 "Welcome " ++ name ++ utf8 "! Thank you for joining Sponsoration."
          HTML := getWelcomeEmailTemplate year name (resolvedAppURL env) } ∧
    name <:+: getWelcomeEmailTemplate year name (resolvedAppURL env) ∧
    utf8 anchorOpen ++ resolvedAppURL env ++ utf8 dashboardAnchorRest <:+:
      getWelcomeEmailTemplate year name (resolvedAppURL env) ∧
    utf8 anchorOpen ++ resolvedAppURL env ++ utf8 privacyAnchorRest <:+:
      getWelcomeEmailTemplate year name (resolvedAppURL env) ∧
    utf8 anchorOpen ++ resolvedAppURL env ++ utf8 termsAnchorRest <:+:
      getWelcomeEmailTemplate year name (resolvedAppURL env) := by
  refine ⟨?_, ?_, welcome_anchors year name _⟩
  · by_cases h : Getenv env "APP_URL" = []
    · simp [SendWelcomeEmail, resolvedAppURL, sprintf_welcome_text, h]
    · simp [SendWelcomeEmail, resolvedAppURL, sprintf_welcome_text, h]
  · rw [welcome_render]
    exact infix_interleave name _ _ (by simp)

/-- C8: every interpolation value appears in the rendered output as a contiguous
substring, byte for byte (so without any escaping): the code in the verification
template; the code and the greeting in the password-reset template; the name and the
URL in the welcome template; for every year. -/
theorem interpolation_verbatim (year : Int) (code greeting name appURL : GoString) :
    code <:+: getVerificationEmailTemplate year code ∧
    code <:+: getPasswordResetEmailTemplate year code greeting ∧
    greeting <:+: getPasswordResetEmailTemplate year code greeting ∧
    name <:+: getWelcomeEmailTemplate year name appURL ∧
    appURL <:+: getWelcomeEmailTemplate year name appURL := by
  rw [verification_render, passwordReset_render, welcome_render]
  exact ⟨infix_interleave _ _ _ (by simp), infix_interleave _ _ _ (by simp),
    infix_interleave _ _ _ (by simp), infix_interleave _ _ _ (by simp),
    infix_interleave _ _ _ (by simp)⟩

/-- C9, as stated, fails: the verification template for the code "ABC123" does not begin
with "<!DOCTYPE html>" (its first byte is a line feed). -/
theorem doctype_first_counterexample :
    ¬ (utf8 "<!DOCTYPE html>" <+: getVerificationEmailTemplate 2024 (utf8 "ABC123")) := by
  intro h
  have hs : utf8 "\n<!DOCTYPE html>" <+: getVerificationEmailTemplate 2024 (utf8 "ABC123") := by
    rw [verification_render]
    exact prefix_of_interleave _ templates_start.1
  have hle : (utf8 "<!DOCTYPE html>").length ≤ (utf8 "\n<!DOCTYPE html>").length := by decide
  have := List.prefix_of_prefix_length_le h hs hle
  revert this
  decide

/-- C9, amended: for every argument and every year, the output of each of the three
template renderers begins with a line feed followed by "<!DOCTYPE html>". -/
theorem doctype_after_newline (year : Int) (code greeting name appURL : GoString) :
    utf8 "\n<!DOCTYPE html>" <+: getVerificationEmailTemplate year code ∧
    utf8 "\n<!DOCTYPE html>" <+: getPasswordResetEmailTemplate year code greeting ∧
    utf8 "\n<!DOCTYPE html>" <+: getWelcomeEmailTemplate year name appURL := by
  rw [verification_render, passwordReset_render, welcome_render]
  exact ⟨prefix_of_interleave _ templates_start.1, prefix_of_interleave _ templates_start.2.1,
    prefix_of_interleave _ templates_start.2.2⟩

/-- C10, as stated, fails: the verification template rendered with the code "</html>"
contains two occurrences of "</html>". -/
theorem closing_tag_counterexample :
    occurrences (utf8 "</html>") (getVerificationEmailTemplate 2024 (utf8 "</html>")) = 2 := by
  rw [verification_closing_tags]
  decide

/-- C10, amended: for every year and all arguments, the number of occurrences of
"</html>" in a renderer's output is one plus the number of occurrences inside its
arguments (the code; the greeting and the code; the name and, three times, the URL); so
the output contains exactly one occurrence whenever no argument contains "</html>". -/
theorem closing_tag_count (year : Int) (code greeting name appURL : GoString) :
    (occurrences (utf8 "</html>") (getVerificationEmailTemplate year code) =
      1 + occurrences (utf8 "</html>") code ∧
    occurrences (utf8 "</html>") (getPasswordResetEmailTemplate year code greeting) =
      1 + occurrences (utf8 "</html>") greeting + occurrences (utf8 "</html>") code ∧
    occurrences (utf8 "</html>") (getWelcomeEmailTemplate year name appURL) =
      1 + occurrences (utf8 "</html>") name + 3 * occurrences (utf8 "</html>") appURL) ∧
    (¬ utf8 "</html>" <:+: code →
      occurrences (utf8 "</html>") (getVerificationEmailTemplate year code) = 1) ∧
    (¬ utf8 "</html>" <:+: code → ¬ utf8 "</html>" <:+: greeting →
      occurrences (utf8 "</html>") (getPasswordResetEmailTemplate year code greeting) = 1) ∧
    (¬ utf8 "</html>" <:+: name → ¬ utf8 "</html>" <:+: appURL →
      occurrences (utf8 "</html>") (getWelcomeEmailTemplate year name appURL) = 1) := by
  have hz : ∀ s : GoString, ¬ utf8 "</html>" <:+: s → occurrences (utf8 "</html>") s = 0 :=
    fun s => (occurrences_eq_zero_iff _ (by decide) s).mpr
  refine ⟨⟨verification_closing_tags year code, passwordReset_closing_tags year code greeting,
    welcome_closing_tags year name appURL⟩, ?_, ?_, ?_⟩
  · intro hc
    rw [verification_closing_tags, hz code hc]
  · intro hc hg
    rw [passwordReset_closing_tags, hz code hc, hz greeting hg]
  · intro hn hu
    rw [welcome_closing_tags, hz name hn, hz appURL hu]

/-- C10 (amended) at the inputs of the tests: one closing tag in each template. -/
theorem closing_tag_count_witness :
    occurrences (utf8 "</html>") (getVerificationEmailTemplate 2024 (utf8 "TEST123")) = 1 ∧
    occurrences (utf8 "</html>")
      (getPasswordResetEmailTemplate 2024 (utf8 "RESET456") (utf8 "Hi John,")) = 1 ∧
    occurrences (utf8 "</html>")
      (getWelcomeEmailTemplate 2024 (utf8 "Jane Smith") (utf8 "https://app.example.com")) = 1 :=
  ⟨(closing_tag_count 2024 (utf8 "TEST123") (utf8 "Hi John,") (utf8 "Jane Smith")
      (utf8 "https://app.example.com")).2.1 (by decide),
    (closing_tag_count 2024 (utf8 "RESET456") (utf8 "Hi John,") (utf8 "Jane Smith")
      (utf8 "https://app.example.com")).2.2.1 (by decide) (by decide),
    (closing_tag_count 2024 (utf8 "TEST123") (utf8 "Hi John,") (utf8 "Jane Smith")
      (utf8 "https://app.example.com")).2.2.2 (by decide) (by decide)⟩

/-- C11: a rendered template carries another template's wording only if an argument
brings it in. For every year: a code containing neither "Password" nor "Welcome" gives a
verification HTML containing neither; a code and a greeting containing neither "Verify"
nor "Welcome" give a password-reset HTML containing neither; a name and a URL
containing none of "Verify", "Reset", "code" give a welcome HTML containing none. -/
theorem foreign_wording_absent (year : Int) (code greeting name appURL : GoString) :
    ((¬ utf8 "Password" <:+: code ∧ ¬ utf8 "Welcome" <:+: code) →
      ¬ utf8 "Password" <:+: getVerificationEmailTemplate year code ∧
      ¬ utf8 "Welcome" <:+: getVerificationEmailTemplate year code) ∧
    ((∀ s ∈ [code, greeting], ¬ utf8 "Verify" <:+: s ∧ ¬ utf8 "Welcome" <:+: s) →
      ¬ utf8 "Verify" <:+: getPasswordResetEmailTemplate year code greeting ∧
      ¬ utf8 "Welcome" <:+: getPasswordResetEmailTemplate year code greeting) ∧
    ((∀ s ∈ [name, appURL],
        ¬ utf8 "Verify" <:+: s ∧ ¬ utf8 "Reset" <:+: s ∧ ¬ utf8 "code" <:+: s) →
      ¬ utf8 "Verify" <:+: getWelcomeEmailTemplate year name appURL ∧
      ¬ utf8 "Reset" <:+: getWelcomeEmailTemplate year name appURL ∧
      ¬ utf8 "code" <:+: getWelcomeEmailTemplate year name appURL) := by
  refine ⟨fun h => ⟨?_, ?_⟩, fun h => ⟨?_, ?_⟩, fun h => ⟨?_, ?_, ?_⟩⟩
  · exact verification_absent _ (by decide) 80 (by decide) (by decide)
      verification_foreign_wording.1 year code h.1
  · exact verification_absent _ (by decide) 87 (by decide) (by decide)
      verification_foreign_wording.2 year code h.2
  · exact passwordReset_absent _ (by decide) 86 (by decide) (by decide)
      passwordReset_foreign_wording.1 year code greeting (h code (by simp)).1
      (h greeting (by simp)).1
  · exact passwordReset_absent _ (by decide) 87 (by decide) (by decide)
      passwordReset_foreign_wording.2 year code greeting (h code (by simp)).2
      (h greeting (by simp)).2
  · exact welcome_absent _ (by decide) 86 (by decide) (by decide)
      welcome_foreign_wording.1 year name appURL (h name (by simp)).1
      (h appURL (by simp)).1
  · exact welcome_absent _ (by decide) 82 (by decide) (by decide)
      welcome_foreign_wording.2.1 year name appURL (h name (by simp)).2.1
      (h appURL (by simp)).2.1
  · exact welcome_absent _ (by decide) 99 (by decide) (by decide)
      welcome_foreign_wording.2.2 year name appURL (h name (by simp)).2.2
      (h appURL (by simp)).2.2

/-- C11 at the inputs of the tests: the codes "ABC123" and "TEST123". -/
theorem foreign_wording_absent_witness :
    (¬ utf8 "Password" <:+: getVerificationEmailTemplate 2024 (utf8 "ABC123") ∧
      ¬ utf8 "Welcome" <:+: getVerificationEmailTemplate 2024 (utf8 "ABC123")) ∧
    (¬ utf8 "Password" <:+: getVerificationEmailTemplate 2024 (utf8 "TEST123") ∧
      ¬ utf8 "Welcome" <:+: getVerificationEmailTemplate 2024 (utf8 "TEST123")) ∧
    (¬ utf8 "Verify" <:+:
        getPasswordResetEmailTemplate 2024 (utf8 "RESET456") (utf8 "Hi John,") ∧
      ¬ utf8 "Welcome" <:+:
        getPasswordResetEmailTemplate 2024 (utf8 "RESET456") (utf8 "Hi John,")) ∧
    (¬ utf8 "Verify" <:+:
        getWelcomeEmailTemplate 2024 (utf8 "Jane Smith") (utf8 "https://app.example.com") ∧
      ¬ utf8 "Reset" <:+:
        getWelcomeEmailTemplate 2024 (utf8 "Jane Smith") (utf8 "https://app.example.com") ∧
      ¬ utf8 "code" <:+:
        getWelcomeEmailTemplate 2024 (utf8 "Jane Smith") (utf8 "https://app.example.com")) :=
  ⟨(foreign_wording_absent 2024 (utf8 "ABC123") (utf8 "Hi John,") (utf8 "Jane Smith")
      (utf8 "https://app.example.com")).1 (by decide),
    (foreign_wording_absent 2024 (utf8 "TEST123") (utf8 "Hi John,") (utf8 "Jane Smith")
      (utf8 "https://app.example.com")).1 (by decide),
    (foreign_wording_absent 2024 (utf8 "RESET456") (utf8 "Hi John,") (utf8 "Jane Smith")
      (utf8 "https://app.example.com")).2.1 (by decide),
    (foreign_wording_absent 2024 (utf8 "RESET456") (utf8 "Hi John,") (utf8 "Jane Smith")
      (utf8 "https://app.example.com")).2.2 (by decide)⟩

/-- C12: no `%s` placeholder survives rendering. For every year and all arguments none
of which contains "%s", the output of each renderer does not contain "%s"; the format's
`100%%` is printed as `100%`; and the output is the literal text of the format with
each operand verb replaced by its own argument, in order. -/
theorem no_placeholder_survives (year : Int) (code greeting name appURL : GoString) :
    (¬ utf8 "%s" <:+: code → ¬ utf8 "%s" <:+: getVerificationEmailTemplate year code) ∧
    (¬ utf8 "%s" <:+: code → ¬ utf8 "%s" <:+: greeting →
      ¬ utf8 "%s" <:+: getPasswordResetEmailTemplate year code greeting) ∧
    (¬ utf8 "%s" <:+: name → ¬ utf8 "%s" <:+: appURL →
      ¬ utf8 "%s" <:+: getWelcomeEmailTemplate year name appURL) ∧
    (utf8 "width=\"100%\"" <:+: getVerificationEmailTemplate year code ∧
      utf8 "width=\"100%\"" <:+: getPasswordResetEmailTemplate year code greeting ∧
      utf8 "width=\"100%\"" <:+: getWelcomeEmailTemplate year name appURL) ∧
    (getVerificationEmailTemplate year code =
        interleave (utf8 verificationFormat) [code, formatInt year] ∧
      getPasswordResetEmailTemplate year code greeting =
        interleave (utf8 passwordResetFormat) [greeting, code, formatInt year] ∧
      getWelcomeEmailTemplate year name appURL =
        interleave (utf8 welcomeFormat) [name, appURL, formatInt year, appURL, appURL]) := by
  refine ⟨?_, ?_, ?_, ⟨?_, ?_, ?_⟩, verification_render year code,
    passwordReset_render year code greeting, welcome_render year name appURL⟩
  · exact verification_absent _ (by decide) 37 (by decide) (by decide)
      templates_placeholder.1 year code
  · exact passwordReset_absent _ (by decide) 37 (by decide) (by decide)
      templates_placeholder.2.1 year code greeting
  · exact welcome_absent _ (by decide) 37 (by decide) (by decide)
      templates_placeholder.2.2 year name appURL
  · rw [verification_render]
    exact occurrences_pos_infix_interleave _ _ (by decide) _
      (by rw [templates_percent_literal.1]; decide)
  · rw [passwordReset_render]
    exact occurrences_pos_infix_interleave _ _ (by decide) _
      (by rw [templates_percent_literal.2.1]; decide)
  · rw [welcome_render]
    exact occurrences_pos_infix_interleave _ _ (by decide) _
      (by rw [templates_percent_literal.2.2]; decide)

/-- C12 at the input of the test: the code "XYZ789". -/
theorem no_placeholder_survives_witness :
    ¬ utf8 "%s" <:+: utf8 "XYZ789" ∧
    ¬ utf8 "%s" <:+: getVerificationEmailTemplate 2024 (utf8 "XYZ789") :=
  ⟨by decide,
    (no_placeholder_survives 2024 (utf8 "XYZ789") (utf8 "Hello,") (utf8 "Alice Johnson")
      (utf8 "https://test.example.com")).1 (by decide)⟩

/-- C13: the test utility invokes `SendVerificationEmail`, `SendPasswordResetEmail` and
`SendWelcomeEmail` once each, in that order, whatever the earlier ones returned (in production
mode each of the three makes its provider call); the destination of all three is the first command-line argument, or "test@example.com" when
there is none; and the exit status is non-zero exactly when one of the three sends
returned an error. -/
theorem cli_three_sends (env : Env) (year1 year2 year3 : Int) (provider : Provider)
    (args : List GoString) (prog first : GoString) (more : List GoString) :
    (main (prog :: first :: more) env year1 year2 year3 provider).sends =
      threeSends env year1 year2 year3 provider first ∧
    (main [prog] env year1 year2 year3 provider).sends =
      threeSends env year1 year2 year3 provider (utf8 "test@example.com") ∧
    (main args env year1 year2 year3 provider).sends.length = 3 ∧
    ((NewEmailService env).1.isDev = false →
      (main args env year1 year2 year3 provider).sends.map (fun o => o.calls.length)
        = [1, 1, 1]) ∧
    ((main args env year1 year2 year3 provider).exitCode ≠ 0 ↔
      ∃ o ∈ (main args env year1 year2 year3 provider).sends, o.err ≠ none) := by
  refine ⟨main_sends _ _ _ _ _ _, main_sends _ _ _ _ _ _, ?_, ?_, ?_⟩
  · rw [main_sends]; rfl
  · intro h
    rw [main_sends]
    exact threeSends_production_calls _ _ _ _ _ _ h
  · rw [main_exitCode]
    by_cases h : ∀ o ∈ (main args env year1 year2 year3 provider).sends, o.err = none
    · rw [if_pos h]
      simp only [ne_eq, not_true_eq_false, false_iff, not_exists, not_and, not_not]
      exact h
    · rw [if_neg h]
      simp only [ne_eq, one_ne_zero, not_false_eq_true, true_iff]
      push_neg at h
      exact h

/-- C13 at a concrete run: in production the first send fails, the other two are still
made, and the exit status is 1. -/
theorem cli_three_sends_witness :
    (main [utf8 "test-email", utf8 "u@x.com"] productionEnv 2024 2024 2024
      firstFailsProvider).sends.map (fun o => (o.err.isSome, o.calls.length)) =
      [(true, 1), (false, 1), (false, 1)] ∧
    (main [utf8 "test-email", utf8 "u@x.com"] productionEnv 2024 2024 2024
      firstFailsProvider).exitCode = 1 := by
  have h := cli_three_sends productionEnv 2024 2024 2024 firstFailsProvider
    [utf8 "test-email", utf8 "u@x.com"] (utf8 "test-email") (utf8 "u@x.com") []
  have hs : (threeSends productionEnv 2024 2024 2024 firstFailsProvider
      (utf8 "u@x.com")).map (fun o => (o.err.isSome, o.calls.length)) =
      [(true, 1), (false, 1), (false, 1)] := by
    decide!
  refine ⟨by rw [h.1]; exact hs, ?_⟩
  rw [main_exitCode, h.1]
  decide!

/-- C14: in development mode the last line `SendEmail` logs is "Content: " followed by
the preview. When the HTML body is longer than 200 bytes the preview is its first 200
bytes (the slice is within bounds: those are 200 bytes, a prefix of the body) followed
by "..."; when it is 200 bytes or shorter the preview is the plain-text body in full,
and the HTML body does not enter the log at all: any other HTML body of at most 200
bytes gives the same outcome, and with an empty text body the preview is empty. -/
theorem dev_preview (provider : Provider) (s : EmailService) (opts : EmailOptions)
    (h : s.isDev = true) :
    (SendEmail provider s opts).log.getLast? = some (utf8 "Content: " ++ devPreview opts) ∧
    (SendEmail provider s opts).log.length = 5 ∧
    (200 < opts.HTML.length →
      devPreview opts = opts.HTML.take 200 ++ utf8 "..." ∧
      (opts.HTML.take 200).length = 200 ∧ opts.HTML.take 200 <+: opts.HTML) ∧
    (opts.HTML.length ≤ 200 →
      devPreview opts = opts.Text ∧
      (∀ html : GoString, html.length ≤ 200 →
        SendEmail provider s { opts with HTML := html } = SendEmail provider s opts) ∧
      (opts.Text = [] → devPreview opts = [])) := by
  rw [sendEmail_dev_log provider s opts h]
  refine ⟨rfl, rfl, ?_, ?_⟩
  · intro hl
    refine ⟨by simp [devPreview, hl], ?_, List.take_prefix _ _⟩
    rw [List.length_take]
    omega
  · intro hl
    have hd : devPreview opts = opts.Text := by
      simp [devPreview, Nat.not_lt.mpr hl]
    refine ⟨hd, ?_, fun ht => by rw [hd, ht]⟩
    intro html hh
    rw [sendEmail_dev_log provider s _ h]
    simp [devPreview, Nat.not_lt.mpr hl, Nat.not_lt.mpr hh]

/-- C14 at concrete envelopes: a short HTML body and an empty text body log the empty
preview; an HTML body of 201 bytes is cut to 200 bytes and "...". -/
theorem dev_preview_witness :
    developmentService.isDev = true ∧ htmlOnlyOptions.HTML.length ≤ 200 ∧
    (SendEmail rejectingProvider developmentService htmlOnlyOptions).log.getLast? =
      some (utf8 "Content: ") ∧
    (SendEmail rejectingProvider developmentService longHtmlOptions).log.getLast? =
      some (utf8 "Content: " ++ (List.replicate 200 120 ++ utf8 "...")) := by
  have h := dev_preview rejectingProvider developmentService htmlOnlyOptions rfl
  have hl : htmlOnlyOptions.HTML.length ≤ 200 := by decide
  have h2 := dev_preview rejectingProvider developmentService longHtmlOptions rfl
  refine ⟨rfl, hl, ?_, ?_⟩
  · rw [h.1, (h.2.2.2 hl).2.2 rfl, List.append_nil]
  · have hlen : 200 < longHtmlOptions.HTML.length := by
      show 200 < (List.replicate 201 (120 : UInt8)).length
      rw [List.length_replicate]
      decide
    have htake : longHtmlOptions.HTML.take 200 = List.replicate 200 120 := by
      show List.take 200 (List.replicate 201 (120 : UInt8)) = _
      rw [List.take_replicate, show min 200 201 = 200 from rfl]
    rw [h2.1, (h2.2.2.1 hlen).1, htake]

end Sponsoration
